import Mathlib

/-!
Shallow embedding of `src/main.rs` from brawer/qsitelinks: the sitelinks
ingestion pipeline (`process`), the site-key decomposition, and the key
encoder (`make_key`) with its Unicode case-folding canonicalization.
External collaborators (the JSON decoder, the LMDB store) are modelled
abstractly: the decoder is a parameter `decode : String → Option Entity`,
and the store is an association list with overwrite (`upsert`) semantics
matching `lmdb` `put` with empty write flags.
-/

namespace QSitelinks

/-- Locale parameter of the `unicode_casefold` crate's folding iterator. -/
inductive Locale where
  | Turkic
  | NonTurkic
  deriving DecidableEq, Repr

/-- Binary search tree holding the full Unicode case-folding table
(CaseFolding.txt, C+F entries): codepoint to folded codepoint sequence.
Only codepoints that fold to something different from themselves appear. -/
inductive FTree where
  | leaf
  | node (l : FTree) (k : Nat) (v : List Nat) (r : FTree)

def lookupT : FTree → Nat → Option (List Nat)
  | .leaf, _ => none
  | .node l k v r, c =>
    if c < k then lookupT l c
    else if c = k then some v
    else lookupT r c

def treeAll (p : Nat → List Nat → Bool) : FTree → Bool
  | .leaf => true
  | .node l k v r => p k v && treeAll p l && treeAll p r

/-- The case-folding table of the unicode_casefold crate, as a balanced
search tree over codepoints (1530 entries, full folding). -/
def foldTree : FTree :=
  (.node (.node (.node (.node (.node (.node (.node (.node (.node (.node (.node .leaf 65 [97] .leaf) 66 [98] .leaf) 67 [99] (.node (.node .leaf 68 [100] .leaf) 69 [101] .leaf)) 70 [102] (.node (.node (.node .leaf 71 [103] .leaf) 72 [104] .leaf) 73 [105] (.node (.node .leaf 74 [106] .leaf) 75 [107] .leaf))) 76 [108] (.node (.node (.node (.node .leaf 77 [109] .leaf) 78 [110] .leaf) 79 [111] (.node (.node .leaf 80 [112] .leaf) 81 [113] .leaf)) 82 [114] (.node (.node (.node .leaf 83 [115] .leaf) 84 [116] .leaf) 85 [117] (.node (.node .leaf 86 [118] .leaf) 87 [119] .leaf)))) 88 [120] (.node (.node (.node (.node (.node .leaf 89 [121] .leaf) 90 [122] .leaf) 181 [956] (.node (.node .leaf 192 [224] .leaf) 193 [225] .leaf)) 194 [226] (.node (.node (.node .leaf 195 [227] .leaf) 196 [228] .leaf) 197 [229] (.node (.node .leaf 198 [230] .leaf) 199 [231] .leaf))) 200 [232] (.node (.node (.node (.node .leaf 201 [233] .leaf) 202 [234] .leaf) 203 [235] (.node (.node .leaf 204 [236] .leaf) 205 [237] .leaf)) 206 [238] (.node (.node (.node .leaf 207 [239] .leaf) 208 [240] .leaf) 209 [241] (.node (.node .leaf 210 [242] .leaf) 211 [243] .leaf))))) 212 [244] (.node (.node (.node (.node (.node (.node .leaf 213 [245] .leaf) 214 [246] .leaf) 216 [248] (.node (.node .leaf 217 [249] .leaf) 218 [250] .leaf)) 219 [251] (.node (.node (.node .leaf 220 [252] .leaf) 221 [253] .leaf) 222 [254] (.node (.node .leaf 223 [115, 115] .leaf) 256 [257] .leaf))) 258 [259] (.node (.node (.node (.node .leaf 260 [261] .leaf) 262 [263] .leaf) 264 [265] (.node (.node .leaf 266 [267] .leaf) 268 [269] .leaf)) 270 [271] (.node (.node (.node .leaf 272 [273] .leaf) 274 [275] .leaf) 276 [277] (.node (.node .leaf 278 [279] .leaf) 280 [281] .leaf)))) 282 [283] (.node (.node (.node (.node (.node .leaf 284 [285] .leaf) 286 [287] .leaf) 288 [289] (.node (.node .leaf 290 [291] .leaf) 292 [293] .leaf)) 294 [295] (.node (.node (.node .leaf 296 [297] .leaf) 298 [299] .leaf) 300 [301] (.node (.node .leaf 302 [303] .leaf) 304 [105, 775] .leaf))) 306 [307] (.node (.node (.node (.node .leaf 308 [309] .leaf) 310 [311] .leaf) 313 [314] (.node (.node .leaf 315 [316] .leaf) 317 [318] .leaf)) 319 [320] (.node (.node (.node .leaf 321 [322] .leaf) 323 [324] .leaf) 325 [326] (.node (.node .leaf 327 [328] .leaf) 329 [700, 110] .leaf)))))) 330 [331] (.node (.node (.node (.node (.node (.node (.node .leaf 332 [333] .leaf) 334 [335] .leaf) 336 [337] (.node (.node .leaf 338 [339] .leaf) 340 [341] .leaf)) 342 [343] (.node (.node (.node .leaf 344 [345] .leaf) 346 [347] .leaf) 348 [349] (.node (.node .leaf 350 [351] .leaf) 352 [353] .leaf))) 354 [355] (.node (.node (.node (.node .leaf 356 [357] .leaf) 358 [359] .leaf) 360 [361] (.node (.node .leaf 362 [363] .leaf) 364 [365] .leaf)) 366 [367] (.node (.node (.node .leaf 368 [369] .leaf) 370 [371] .leaf) 372 [373] (.node (.node .leaf 374 [375] .leaf) 376 [255] .leaf)))) 377 [378] (.node (.node (.node (.node (.node .leaf 379 [380] .leaf) 381 [382] .leaf) 383 [115] (.node (.node .leaf 385 [595] .leaf) 386 [387] .leaf)) 388 [389] (.node (.node (.node .leaf 390 [596] .leaf) 391 [392] .leaf) 393 [598] (.node (.node .leaf 394 [599] .leaf) 395 [396] .leaf))) 398 [477] (.node (.node (.node (.node .leaf 399 [601] .leaf) 400 [603] .leaf) 401 [402] (.node (.node .leaf 403 [608] .leaf) 404 [611] .leaf)) 406 [617] (.node (.node (.node .leaf 407 [616] .leaf) 408 [409] .leaf) 412 [623] (.node (.node .leaf 413 [626] .leaf) 415 [629] .leaf))))) 416 [417] (.node (.node (.node (.node (.node (.node .leaf 418 [419] .leaf) 420 [421] .leaf) 422 [640] (.node (.node .leaf 423 [424] .leaf) 425 [643] .leaf)) 428 [429] (.node (.node (.node .leaf 430 [648] .leaf) 431 [432] .leaf) 433 [650] (.node (.node .leaf 434 [651] .leaf) 435 [436] .leaf))) 437 [438] (.node (.node (.node (.node .leaf 439 [658] .leaf) 440 [441] .leaf) 444 [445] (.node (.node .leaf 452 [454] .leaf) 453 [454] .leaf)) 455 [457] (.node (.node (.node .leaf 456 [457] .leaf) 458 [460] .leaf) 459 [460] (.node (.node .leaf 461 [462] .leaf) 463 [464] .leaf)))) 465 [466] (.node (.node (.node (.node (.node .leaf 467 [468] .leaf) 469 [470] .leaf) 471 [472] (.node (.node .leaf 473 [474] .leaf) 475 [476] .leaf)) 478 [479] (.node (.node (.node .leaf 480 [481] .leaf) 482 [483] .leaf) 484 [485] (.node (.node .leaf 486 [487] .leaf) 488 [489] .leaf))) 490 [491] (.node (.node (.node (.node .leaf 492 [493] .leaf) 494 [495] .leaf) 496 [106, 780] (.node (.node .leaf 497 [499] .leaf) 498 [499] .leaf)) 500 [501] (.node (.node (.node .leaf 502 [405] .leaf) 503 [447] .leaf) 504 [505] (.node (.node .leaf 506 [507] .leaf) 508 [509] .leaf))))))) 510 [511] (.node (.node (.node (.node (.node (.node (.node (.node .leaf 512 [513] .leaf) 514 [515] .leaf) 516 [517] (.node (.node .leaf 518 [519] .leaf) 520 [521] .leaf)) 522 [523] (.node (.node (.node .leaf 524 [525] .leaf) 526 [527] .leaf) 528 [529] (.node (.node .leaf 530 [531] .leaf) 532 [533] .leaf))) 534 [535] (.node (.node (.node (.node .leaf 536 [537] .leaf) 538 [539] .leaf) 540 [541] (.node (.node .leaf 542 [543] .leaf) 544 [414] .leaf)) 546 [547] (.node (.node (.node .leaf 548 [549] .leaf) 550 [551] .leaf) 552 [553] (.node (.node .leaf 554 [555] .leaf) 556 [557] .leaf)))) 558 [559] (.node (.node (.node (.node (.node .leaf 560 [561] .leaf) 562 [563] .leaf) 570 [11365] (.node (.node .leaf 571 [572] .leaf) 573 [410] .leaf)) 574 [11366] (.node (.node (.node .leaf 577 [578] .leaf) 579 [384] .leaf) 580 [649] (.node (.node .leaf 581 [652] .leaf) 582 [583] .leaf))) 584 [585] (.node (.node (.node (.node .leaf 586 [587] .leaf) 588 [589] .leaf) 590 [591] (.node (.node .leaf 837 [953] .leaf) 880 [881] .leaf)) 882 [883] (.node (.node (.node .leaf 886 [887] .leaf) 895 [1011] .leaf) 902 [940] (.node (.node .leaf 904 [941] .leaf) 905 [942] .leaf))))) 906 [943] (.node (.node (.node (.node (.node (.node .leaf 908 [972] .leaf) 910 [973] .leaf) 911 [974] (.node (.node .leaf 912 [953, 776, 769] .leaf) 913 [945] .leaf)) 914 [946] (.node (.node (.node .leaf 915 [947] .leaf) 916 [948] .leaf) 917 [949] (.node (.node .leaf 918 [950] .leaf) 919 [951] .leaf))) 920 [952] (.node (.node (.node (.node .leaf 921 [953] .leaf) 922 [954] .leaf) 923 [955] (.node (.node .leaf 924 [956] .leaf) 925 [957] .leaf)) 926 [958] (.node (.node (.node .leaf 927 [959] .leaf) 928 [960] .leaf) 929 [961] (.node (.node .leaf 931 [963] .leaf) 932 [964] .leaf)))) 933 [965] (.node (.node (.node (.node (.node .leaf 934 [966] .leaf) 935 [967] .leaf) 936 [968] (.node (.node .leaf 937 [969] .leaf) 938 [970] .leaf)) 939 [971] (.node (.node (.node .leaf 944 [965, 776, 769] .leaf) 962 [963] .leaf) 975 [983] (.node (.node .leaf 976 [946] .leaf) 977 [952] .leaf))) 981 [966] (.node (.node (.node (.node .leaf 982 [960] .leaf) 984 [985] .leaf) 986 [987] (.node (.node .leaf 988 [989] .leaf) 990 [991] .leaf)) 992 [993] (.node (.node (.node .leaf 994 [995] .leaf) 996 [997] .leaf) 998 [999] (.node (.node .leaf 1000 [1001] .leaf) 1002 [1003] .leaf)))))) 1004 [1005] (.node (.node (.node (.node (.node (.node (.node .leaf 1006 [1007] .leaf) 1008 [954] .leaf) 1009 [961] (.node (.node .leaf 1012 [952] .leaf) 1013 [949] .leaf)) 1015 [1016] (.node (.node (.node .leaf 1017 [1010] .leaf) 1018 [1019] .leaf) 1021 [891] (.node (.node .leaf 1022 [892] .leaf) 1023 [893] .leaf))) 1024 [1104] (.node (.node (.node (.node .leaf 1025 [1105] .leaf) 1026 [1106] .leaf) 1027 [1107] (.node (.node .leaf 1028 [1108] .leaf) 1029 [1109] .leaf)) 1030 [1110] (.node (.node (.node .leaf 1031 [1111] .leaf) 1032 [1112] .leaf) 1033 [1113] (.node (.node .leaf 1034 [1114] .leaf) 1035 [1115] .leaf)))) 1036 [1116] (.node (.node (.node (.node (.node .leaf 1037 [1117] .leaf) 1038 [1118] .leaf) 1039 [1119] (.node (.node .leaf 1040 [1072] .leaf) 1041 [1073] .leaf)) 1042 [1074] (.node (.node (.node .leaf 1043 [1075] .leaf) 1044 [1076] .leaf) 1045 [1077] (.node (.node .leaf 1046 [1078] .leaf) 1047 [1079] .leaf))) 1048 [1080] (.node (.node (.node (.node .leaf 1049 [1081] .leaf) 1050 [1082] .leaf) 1051 [1083] (.node (.node .leaf 1052 [1084] .leaf) 1053 [1085] .leaf)) 1054 [1086] (.node (.node (.node .leaf 1055 [1087] .leaf) 1056 [1088] .leaf) 1057 [1089] (.node (.node .leaf 1058 [1090] .leaf) 1059 [1091] .leaf))))) 1060 [1092] (.node (.node (.node (.node (.node (.node .leaf 1061 [1093] .leaf) 1062 [1094] .leaf) 1063 [1095] (.node (.node .leaf 1064 [1096] .leaf) 1065 [1097] .leaf)) 1066 [1098] (.node (.node (.node .leaf 1067 [1099] .leaf) 1068 [1100] .leaf) 1069 [1101] (.node (.node .leaf 1070 [1102] .leaf) 1071 [1103] .leaf))) 1120 [1121] (.node (.node (.node (.node .leaf 1122 [1123] .leaf) 1124 [1125] .leaf) 1126 [1127] (.node (.node .leaf 1128 [1129] .leaf) 1130 [1131] .leaf)) 1132 [1133] (.node (.node (.node .leaf 1134 [1135] .leaf) 1136 [1137] .leaf) 1138 [1139] (.node (.node .leaf 1140 [1141] .leaf) 1142 [1143] .leaf)))) 1144 [1145] (.node (.node (.node (.node (.node .leaf 1146 [1147] .leaf) 1148 [1149] .leaf) 1150 [1151] (.node (.node .leaf 1152 [1153] .leaf) 1162 [1163] .leaf)) 1164 [1165] (.node (.node (.node .leaf 1166 [1167] .leaf) 1168 [1169] .leaf) 1170 [1171] (.node (.node .leaf 1172 [1173] .leaf) 1174 [1175] .leaf))) 1176 [1177] (.node (.node (.node (.node .leaf 1178 [1179] .leaf) 1180 [1181] .leaf) 1182 [1183] (.node (.node .leaf 1184 [1185] .leaf) 1186 [1187] .leaf)) 1188 [1189] (.node (.node (.node .leaf 1190 [1191] .leaf) 1192 [1193] .leaf) 1194 [1195] (.node .leaf 1196 [1197] .leaf)))))))) 1198 [1199] (.node (.node (.node (.node (.node (.node (.node (.node (.node .leaf 1200 [1201] .leaf) 1202 [1203] .leaf) 1204 [1205] (.node (.node .leaf 1206 [1207] .leaf) 1208 [1209] .leaf)) 1210 [1211] (.node (.node (.node .leaf 1212 [1213] .leaf) 1214 [1215] .leaf) 1216 [1231] (.node (.node .leaf 1217 [1218] .leaf) 1219 [1220] .leaf))) 1221 [1222] (.node (.node (.node (.node .leaf 1223 [1224] .leaf) 1225 [1226] .leaf) 1227 [1228] (.node (.node .leaf 1229 [1230] .leaf) 1232 [1233] .leaf)) 1234 [1235] (.node (.node (.node .leaf 1236 [1237] .leaf) 1238 [1239] .leaf) 1240 [1241] (.node (.node .leaf 1242 [1243] .leaf) 1244 [1245] .leaf)))) 1246 [1247] (.node (.node (.node (.node (.node .leaf 1248 [1249] .leaf) 1250 [1251] .leaf) 1252 [1253] (.node (.node .leaf 1254 [1255] .leaf) 1256 [1257] .leaf)) 1258 [1259] (.node (.node (.node .leaf 1260 [1261] .leaf) 1262 [1263] .leaf) 1264 [1265] (.node (.node .leaf 1266 [1267] .leaf) 1268 [1269] .leaf))) 1270 [1271] (.node (.node (.node (.node .leaf 1272 [1273] .leaf) 1274 [1275] .leaf) 1276 [1277] (.node (.node .leaf 1278 [1279] .leaf) 1280 [1281] .leaf)) 1282 [1283] (.node (.node (.node .leaf 1284 [1285] .leaf) 1286 [1287] .leaf) 1288 [1289] (.node (.node .leaf 1290 [1291] .leaf) 1292 [1293] .leaf))))) 1294 [1295] (.node (.node (.node (.node (.node (.node .leaf 1296 [1297] .leaf) 1298 [1299] .leaf) 1300 [1301] (.node (.node .leaf 1302 [1303] .leaf) 1304 [1305] .leaf)) 1306 [1307] (.node (.node (.node .leaf 1308 [1309] .leaf) 1310 [1311] .leaf) 1312 [1313] (.node (.node .leaf 1314 [1315] .leaf) 1316 [1317] .leaf))) 1318 [1319] (.node (.node (.node (.node .leaf 1320 [1321] .leaf) 1322 [1323] .leaf) 1324 [1325] (.node (.node .leaf 1326 [1327] .leaf) 1329 [1377] .leaf)) 1330 [1378] (.node (.node (.node .leaf 1331 [1379] .leaf) 1332 [1380] .leaf) 1333 [1381] (.node (.node .leaf 1334 [1382] .leaf) 1335 [1383] .leaf)))) 1336 [1384] (.node (.node (.node (.node (.node .leaf 1337 [1385] .leaf) 1338 [1386] .leaf) 1339 [1387] (.node (.node .leaf 1340 [1388] .leaf) 1341 [1389] .leaf)) 1342 [1390] (.node (.node (.node .leaf 1343 [1391] .leaf) 1344 [1392] .leaf) 1345 [1393] (.node (.node .leaf 1346 [1394] .leaf) 1347 [1395] .leaf))) 1348 [1396] (.node (.node (.node (.node .leaf 1349 [1397] .leaf) 1350 [1398] .leaf) 1351 [1399] (.node (.node .leaf 1352 [1400] .leaf) 1353 [1401] .leaf)) 1354 [1402] (.node (.node (.node .leaf 1355 [1403] .leaf) 1356 [1404] .leaf) 1357 [1405] (.node (.node .leaf 1358 [1406] .leaf) 1359 [1407] .leaf)))))) 1360 [1408] (.node (.node (.node (.node (.node (.node (.node .leaf 1361 [1409] .leaf) 1362 [1410] .leaf) 1363 [1411] (.node (.node .leaf 1364 [1412] .leaf) 1365 [1413] .leaf)) 1366 [1414] (.node (.node (.node .leaf 1415 [1381, 1410] .leaf) 4256 [11520] .leaf) 4257 [11521] (.node (.node .leaf 4258 [11522] .leaf) 4259 [11523] .leaf))) 4260 [11524] (.node (.node (.node (.node .leaf 4261 [11525] .leaf) 4262 [11526] .leaf) 4263 [11527] (.node (.node .leaf 4264 [11528] .leaf) 4265 [11529] .leaf)) 4266 [11530] (.node (.node (.node .leaf 4267 [11531] .leaf) 4268 [11532] .leaf) 4269 [11533] (.node (.node .leaf 4270 [11534] .leaf) 4271 [11535] .leaf)))) 4272 [11536] (.node (.node (.node (.node (.node .leaf 4273 [11537] .leaf) 4274 [11538] .leaf) 4275 [11539] (.node (.node .leaf 4276 [11540] .leaf) 4277 [11541] .leaf)) 4278 [11542] (.node (.node (.node .leaf 4279 [11543] .leaf) 4280 [11544] .leaf) 4281 [11545] (.node (.node .leaf 4282 [11546] .leaf) 4283 [11547] .leaf))) 4284 [11548] (.node (.node (.node (.node .leaf 4285 [11549] .leaf) 4286 [11550] .leaf) 4287 [11551] (.node (.node .leaf 4288 [11552] .leaf) 4289 [11553] .leaf)) 4290 [11554] (.node (.node (.node .leaf 4291 [11555] .leaf) 4292 [11556] .leaf) 4293 [11557] (.node (.node .leaf 4295 [11559] .leaf) 4301 [11565] .leaf))))) 5112 [5104] (.node (.node (.node (.node (.node (.node .leaf 5113 [5105] .leaf) 5114 [5106] .leaf) 5115 [5107] (.node (.node .leaf 5116 [5108] .leaf) 5117 [5109] .leaf)) 7296 [1074] (.node (.node (.node .leaf 7297 [1076] .leaf) 7298 [1086] .leaf) 7299 [1089] (.node (.node .leaf 7300 [1090] .leaf) 7301 [1090] .leaf))) 7302 [1098] (.node (.node (.node (.node .leaf 7303 [1123] .leaf) 7304 [42571] .leaf) 7312 [4304] (.node (.node .leaf 7313 [4305] .leaf) 7314 [4306] .leaf)) 7315 [4307] (.node (.node (.node .leaf 7316 [4308] .leaf) 7317 [4309] .leaf) 7318 [4310] (.node (.node .leaf 7319 [4311] .leaf) 7320 [4312] .leaf)))) 7321 [4313] (.node (.node (.node (.node (.node .leaf 7322 [4314] .leaf) 7323 [4315] .leaf) 7324 [4316] (.node (.node .leaf 7325 [4317] .leaf) 7326 [4318] .leaf)) 7327 [4319] (.node (.node (.node .leaf 7328 [4320] .leaf) 7329 [4321] .leaf) 7330 [4322] (.node (.node .leaf 7331 [4323] .leaf) 7332 [4324] .leaf))) 7333 [4325] (.node (.node (.node (.node .leaf 7334 [4326] .leaf) 7335 [4327] .leaf) 7336 [4328] (.node (.node .leaf 7337 [4329] .leaf) 7338 [4330] .leaf)) 7339 [4331] (.node (.node (.node .leaf 7340 [4332] .leaf) 7341 [4333] .leaf) 7342 [4334] (.node (.node .leaf 7343 [4335] .leaf) 7344 [4336] .leaf))))))) 7345 [4337] (.node (.node (.node (.node (.node (.node (.node (.node .leaf 7346 [4338] .leaf) 7347 [4339] .leaf) 7348 [4340] (.node (.node .leaf 7349 [4341] .leaf) 7350 [4342] .leaf)) 7351 [4343] (.node (.node (.node .leaf 7352 [4344] .leaf) 7353 [4345] .leaf) 7354 [4346] (.node (.node .leaf 7357 [4349] .leaf) 7358 [4350] .leaf))) 7359 [4351] (.node (.node (.node (.node .leaf 7680 [7681] .leaf) 7682 [7683] .leaf) 7684 [7685] (.node (.node .leaf 7686 [7687] .leaf) 7688 [7689] .leaf)) 7690 [7691] (.node (.node (.node .leaf 7692 [7693] .leaf) 7694 [7695] .leaf) 7696 [7697] (.node (.node .leaf 7698 [7699] .leaf) 7700 [7701] .leaf)))) 7702 [7703] (.node (.node (.node (.node (.node .leaf 7704 [7705] .leaf) 7706 [7707] .leaf) 7708 [7709] (.node (.node .leaf 7710 [7711] .leaf) 7712 [7713] .leaf)) 7714 [7715] (.node (.node (.node .leaf 7716 [7717] .leaf) 7718 [7719] .leaf) 7720 [7721] (.node (.node .leaf 7722 [7723] .leaf) 7724 [7725] .leaf))) 7726 [7727] (.node (.node (.node (.node .leaf 7728 [7729] .leaf) 7730 [7731] .leaf) 7732 [7733] (.node (.node .leaf 7734 [7735] .leaf) 7736 [7737] .leaf)) 7738 [7739] (.node (.node (.node .leaf 7740 [7741] .leaf) 7742 [7743] .leaf) 7744 [7745] (.node (.node .leaf 7746 [7747] .leaf) 7748 [7749] .leaf))))) 7750 [7751] (.node (.node (.node (.node (.node (.node .leaf 7752 [7753] .leaf) 7754 [7755] .leaf) 7756 [7757] (.node (.node .leaf 7758 [7759] .leaf) 7760 [7761] .leaf)) 7762 [7763] (.node (.node (.node .leaf 7764 [7765] .leaf) 7766 [7767] .leaf) 7768 [7769] (.node (.node .leaf 7770 [7771] .leaf) 7772 [7773] .leaf))) 7774 [7775] (.node (.node (.node (.node .leaf 7776 [7777] .leaf) 7778 [7779] .leaf) 7780 [7781] (.node (.node .leaf 7782 [7783] .leaf) 7784 [7785] .leaf)) 7786 [7787] (.node (.node (.node .leaf 7788 [7789] .leaf) 7790 [7791] .leaf) 7792 [7793] (.node (.node .leaf 7794 [7795] .leaf) 7796 [7797] .leaf)))) 7798 [7799] (.node (.node (.node (.node (.node .leaf 7800 [7801] .leaf) 7802 [7803] .leaf) 7804 [7805] (.node (.node .leaf 7806 [7807] .leaf) 7808 [7809] .leaf)) 7810 [7811] (.node (.node (.node .leaf 7812 [7813] .leaf) 7814 [7815] .leaf) 7816 [7817] (.node (.node .leaf 7818 [7819] .leaf) 7820 [7821] .leaf))) 7822 [7823] (.node (.node (.node (.node .leaf 7824 [7825] .leaf) 7826 [7827] .leaf) 7828 [7829] (.node (.node .leaf 7830 [104, 817] .leaf) 7831 [116, 776] .leaf)) 7832 [119, 778] (.node (.node (.node .leaf 7833 [121, 778] .leaf) 7834 [97, 702] .leaf) 7835 [7777] (.node (.node .leaf 7838 [115, 115] .leaf) 7840 [7841] .leaf)))))) 7842 [7843] (.node (.node (.node (.node (.node (.node (.node .leaf 7844 [7845] .leaf) 7846 [7847] .leaf) 7848 [7849] (.node (.node .leaf 7850 [7851] .leaf) 7852 [7853] .leaf)) 7854 [7855] (.node (.node (.node .leaf 7856 [7857] .leaf) 7858 [7859] .leaf) 7860 [7861] (.node (.node .leaf 7862 [7863] .leaf) 7864 [7865] .leaf))) 7866 [7867] (.node (.node (.node (.node .leaf 7868 [7869] .leaf) 7870 [7871] .leaf) 7872 [7873] (.node (.node .leaf 7874 [7875] .leaf) 7876 [7877] .leaf)) 7878 [7879] (.node (.node (.node .leaf 7880 [7881] .leaf) 7882 [7883] .leaf) 7884 [7885] (.node (.node .leaf 7886 [7887] .leaf) 7888 [7889] .leaf)))) 7890 [7891] (.node (.node (.node (.node (.node .leaf 7892 [7893] .leaf) 7894 [7895] .leaf) 7896 [7897] (.node (.node .leaf 7898 [7899] .leaf) 7900 [7901] .leaf)) 7902 [7903] (.node (.node (.node .leaf 7904 [7905] .leaf) 7906 [7907] .leaf) 7908 [7909] (.node (.node .leaf 7910 [7911] .leaf) 7912 [7913] .leaf))) 7914 [7915] (.node (.node (.node (.node .leaf 7916 [7917] .leaf) 7918 [7919] .leaf) 7920 [7921] (.node (.node .leaf 7922 [7923] .leaf) 7924 [7925] .leaf)) 7926 [7927] (.node (.node (.node .leaf 7928 [7929] .leaf) 7930 [7931] .leaf) 7932 [7933] (.node (.node .leaf 7934 [7935] .leaf) 7944 [7936] .leaf))))) 7945 [7937] (.node (.node (.node (.node (.node (.node .leaf 7946 [7938] .leaf) 7947 [7939] .leaf) 7948 [7940] (.node (.node .leaf 7949 [7941] .leaf) 7950 [7942] .leaf)) 7951 [7943] (.node (.node (.node .leaf 7960 [7952] .leaf) 7961 [7953] .leaf) 7962 [7954] (.node (.node .leaf 7963 [7955] .leaf) 7964 [7956] .leaf))) 7965 [7957] (.node (.node (.node (.node .leaf 7976 [7968] .leaf) 7977 [7969] .leaf) 7978 [7970] (.node (.node .leaf 7979 [7971] .leaf) 7980 [7972] .leaf)) 7981 [7973] (.node (.node (.node .leaf 7982 [7974] .leaf) 7983 [7975] .leaf) 7992 [7984] (.node (.node .leaf 7993 [7985] .leaf) 7994 [7986] .leaf)))) 7995 [7987] (.node (.node (.node (.node (.node .leaf 7996 [7988] .leaf) 7997 [7989] .leaf) 7998 [7990] (.node (.node .leaf 7999 [7991] .leaf) 8008 [8000] .leaf)) 8009 [8001] (.node (.node (.node .leaf 8010 [8002] .leaf) 8011 [8003] .leaf) 8012 [8004] (.node (.node .leaf 8013 [8005] .leaf) 8016 [965, 787] .leaf))) 8018 [965, 787, 768] (.node (.node (.node (.node .leaf 8020 [965, 787, 769] .leaf) 8022 [965, 787, 834] .leaf) 8025 [8017] (.node (.node .leaf 8027 [8019] .leaf) 8029 [8021] .leaf)) 8031 [8023] (.node (.node (.node .leaf 8040 [8032] .leaf) 8041 [8033] .leaf) 8042 [8034] (.node .leaf 8043 [8035] .leaf))))))))) 8044 [8036] (.node (.node (.node (.node (.node (.node (.node (.node (.node (.node .leaf 8045 [8037] .leaf) 8046 [8038] .leaf) 8047 [8039] (.node (.node .leaf 8064 [7936, 953] .leaf) 8065 [7937, 953] .leaf)) 8066 [7938, 953] (.node (.node (.node .leaf 8067 [7939, 953] .leaf) 8068 [7940, 953] .leaf) 8069 [7941, 953] (.node (.node .leaf 8070 [7942, 953] .leaf) 8071 [7943, 953] .leaf))) 8072 [7936, 953] (.node (.node (.node (.node .leaf 8073 [7937, 953] .leaf) 8074 [7938, 953] .leaf) 8075 [7939, 953] (.node (.node .leaf 8076 [7940, 953] .leaf) 8077 [7941, 953] .leaf)) 8078 [7942, 953] (.node (.node (.node .leaf 8079 [7943, 953] .leaf) 8080 [7968, 953] .leaf) 8081 [7969, 953] (.node (.node .leaf 8082 [7970, 953] .leaf) 8083 [7971, 953] .leaf)))) 8084 [7972, 953] (.node (.node (.node (.node (.node .leaf 8085 [7973, 953] .leaf) 8086 [7974, 953] .leaf) 8087 [7975, 953] (.node (.node .leaf 8088 [7968, 953] .leaf) 8089 [7969, 953] .leaf)) 8090 [7970, 953] (.node (.node (.node .leaf 8091 [7971, 953] .leaf) 8092 [7972, 953] .leaf) 8093 [7973, 953] (.node (.node .leaf 8094 [7974, 953] .leaf) 8095 [7975, 953] .leaf))) 8096 [8032, 953] (.node (.node (.node (.node .leaf 8097 [8033, 953] .leaf) 8098 [8034, 953] .leaf) 8099 [8035, 953] (.node (.node .leaf 8100 [8036, 953] .leaf) 8101 [8037, 953] .leaf)) 8102 [8038, 953] (.node (.node (.node .leaf 8103 [8039, 953] .leaf) 8104 [8032, 953] .leaf) 8105 [8033, 953] (.node (.node .leaf 8106 [8034, 953] .leaf) 8107 [8035, 953] .leaf))))) 8108 [8036, 953] (.node (.node (.node (.node (.node (.node .leaf 8109 [8037, 953] .leaf) 8110 [8038, 953] .leaf) 8111 [8039, 953] (.node (.node .leaf 8114 [8048, 953] .leaf) 8115 [945, 953] .leaf)) 8116 [940, 953] (.node (.node (.node .leaf 8118 [945, 834] .leaf) 8119 [945, 834, 953] .leaf) 8120 [8112] (.node (.node .leaf 8121 [8113] .leaf) 8122 [8048] .leaf))) 8123 [8049] (.node (.node (.node (.node .leaf 8124 [945, 953] .leaf) 8126 [953] .leaf) 8130 [8052, 953] (.node (.node .leaf 8131 [951, 953] .leaf) 8132 [942, 953] .leaf)) 8134 [951, 834] (.node (.node (.node .leaf 8135 [951, 834, 953] .leaf) 8136 [8050] .leaf) 8137 [8051] (.node (.node .leaf 8138 [8052] .leaf) 8139 [8053] .leaf)))) 8140 [951, 953] (.node (.node (.node (.node (.node .leaf 8146 [953, 776, 768] .leaf) 8147 [953, 776, 769] .leaf) 8150 [953, 834] (.node (.node .leaf 8151 [953, 776, 834] .leaf) 8152 [8144] .leaf)) 8153 [8145] (.node (.node (.node .leaf 8154 [8054] .leaf) 8155 [8055] .leaf) 8162 [965, 776, 768] (.node (.node .leaf 8163 [965, 776, 769] .leaf) 8164 [961, 787] .leaf))) 8166 [965, 834] (.node (.node (.node (.node .leaf 8167 [965, 776, 834] .leaf) 8168 [8160] .leaf) 8169 [8161] (.node (.node .leaf 8170 [8058] .leaf) 8171 [8059] .leaf)) 8172 [8165] (.node (.node (.node .leaf 8178 [8060, 953] .leaf) 8179 [969, 953] .leaf) 8180 [974, 953] (.node (.node .leaf 8182 [969, 834] .leaf) 8183 [969, 834, 953] .leaf)))))) 8184 [8056] (.node (.node (.node (.node (.node (.node (.node .leaf 8185 [8057] .leaf) 8186 [8060] .leaf) 8187 [8061] (.node (.node .leaf 8188 [969, 953] .leaf) 8486 [969] .leaf)) 8490 [107] (.node (.node (.node .leaf 8491 [229] .leaf) 8498 [8526] .leaf) 8544 [8560] (.node (.node .leaf 8545 [8561] .leaf) 8546 [8562] .leaf))) 8547 [8563] (.node (.node (.node (.node .leaf 8548 [8564] .leaf) 8549 [8565] .leaf) 8550 [8566] (.node (.node .leaf 8551 [8567] .leaf) 8552 [8568] .leaf)) 8553 [8569] (.node (.node (.node .leaf 8554 [8570] .leaf) 8555 [8571] .leaf) 8556 [8572] (.node (.node .leaf 8557 [8573] .leaf) 8558 [8574] .leaf)))) 8559 [8575] (.node (.node (.node (.node (.node .leaf 8579 [8580] .leaf) 9398 [9424] .leaf) 9399 [9425] (.node (.node .leaf 9400 [9426] .leaf) 9401 [9427] .leaf)) 9402 [9428] (.node (.node (.node .leaf 9403 [9429] .leaf) 9404 [9430] .leaf) 9405 [9431] (.node (.node .leaf 9406 [9432] .leaf) 9407 [9433] .leaf))) 9408 [9434] (.node (.node (.node (.node .leaf 9409 [9435] .leaf) 9410 [9436] .leaf) 9411 [9437] (.node (.node .leaf 9412 [9438] .leaf) 9413 [9439] .leaf)) 9414 [9440] (.node (.node (.node .leaf 9415 [9441] .leaf) 9416 [9442] .leaf) 9417 [9443] (.node (.node .leaf 9418 [9444] .leaf) 9419 [9445] .leaf))))) 9420 [9446] (.node (.node (.node (.node (.node (.node .leaf 9421 [9447] .leaf) 9422 [9448] .leaf) 9423 [9449] (.node (.node .leaf 11264 [11312] .leaf) 11265 [11313] .leaf)) 11266 [11314] (.node (.node (.node .leaf 11267 [11315] .leaf) 11268 [11316] .leaf) 11269 [11317] (.node (.node .leaf 11270 [11318] .leaf) 11271 [11319] .leaf))) 11272 [11320] (.node (.node (.node (.node .leaf 11273 [11321] .leaf) 11274 [11322] .leaf) 11275 [11323] (.node (.node .leaf 11276 [11324] .leaf) 11277 [11325] .leaf)) 11278 [11326] (.node (.node (.node .leaf 11279 [11327] .leaf) 11280 [11328] .leaf) 11281 [11329] (.node (.node .leaf 11282 [11330] .leaf) 11283 [11331] .leaf)))) 11284 [11332] (.node (.node (.node (.node (.node .leaf 11285 [11333] .leaf) 11286 [11334] .leaf) 11287 [11335] (.node (.node .leaf 11288 [11336] .leaf) 11289 [11337] .leaf)) 11290 [11338] (.node (.node (.node .leaf 11291 [11339] .leaf) 11292 [11340] .leaf) 11293 [11341] (.node (.node .leaf 11294 [11342] .leaf) 11295 [11343] .leaf))) 11296 [11344] (.node (.node (.node (.node .leaf 11297 [11345] .leaf) 11298 [11346] .leaf) 11299 [11347] (.node (.node .leaf 11300 [11348] .leaf) 11301 [11349] .leaf)) 11302 [11350] (.node (.node (.node .leaf 11303 [11351] .leaf) 11304 [11352] .leaf) 11305 [11353] (.node (.node .leaf 11306 [11354] .leaf) 11307 [11355] .leaf))))))) 11308 [11356] (.node (.node (.node (.node (.node (.node (.node (.node .leaf 11309 [11357] .leaf) 11310 [11358] .leaf) 11311 [11359] (.node (.node .leaf 11360 [11361] .leaf) 11362 [619] .leaf)) 11363 [7549] (.node (.node (.node .leaf 11364 [637] .leaf) 11367 [11368] .leaf) 11369 [11370] (.node (.node .leaf 11371 [11372] .leaf) 11373 [593] .leaf))) 11374 [625] (.node (.node (.node (.node .leaf 11375 [592] .leaf) 11376 [594] .leaf) 11378 [11379] (.node (.node .leaf 11381 [11382] .leaf) 11390 [575] .leaf)) 11391 [576] (.node (.node (.node .leaf 11392 [11393] .leaf) 11394 [11395] .leaf) 11396 [11397] (.node (.node .leaf 11398 [11399] .leaf) 11400 [11401] .leaf)))) 11402 [11403] (.node (.node (.node (.node (.node .leaf 11404 [11405] .leaf) 11406 [11407] .leaf) 11408 [11409] (.node (.node .leaf 11410 [11411] .leaf) 11412 [11413] .leaf)) 11414 [11415] (.node (.node (.node .leaf 11416 [11417] .leaf) 11418 [11419] .leaf) 11420 [11421] (.node (.node .leaf 11422 [11423] .leaf) 11424 [11425] .leaf))) 11426 [11427] (.node (.node (.node (.node .leaf 11428 [11429] .leaf) 11430 [11431] .leaf) 11432 [11433] (.node (.node .leaf 11434 [11435] .leaf) 11436 [11437] .leaf)) 11438 [11439] (.node (.node (.node .leaf 11440 [11441] .leaf) 11442 [11443] .leaf) 11444 [11445] (.node (.node .leaf 11446 [11447] .leaf) 11448 [11449] .leaf))))) 11450 [11451] (.node (.node (.node (.node (.node (.node .leaf 11452 [11453] .leaf) 11454 [11455] .leaf) 11456 [11457] (.node (.node .leaf 11458 [11459] .leaf) 11460 [11461] .leaf)) 11462 [11463] (.node (.node (.node .leaf 11464 [11465] .leaf) 11466 [11467] .leaf) 11468 [11469] (.node (.node .leaf 11470 [11471] .leaf) 11472 [11473] .leaf))) 11474 [11475] (.node (.node (.node (.node .leaf 11476 [11477] .leaf) 11478 [11479] .leaf) 11480 [11481] (.node (.node .leaf 11482 [11483] .leaf) 11484 [11485] .leaf)) 11486 [11487] (.node (.node (.node .leaf 11488 [11489] .leaf) 11490 [11491] .leaf) 11499 [11500] (.node (.node .leaf 11501 [11502] .leaf) 11506 [11507] .leaf)))) 42560 [42561] (.node (.node (.node (.node (.node .leaf 42562 [42563] .leaf) 42564 [42565] .leaf) 42566 [42567] (.node (.node .leaf 42568 [42569] .leaf) 42570 [42571] .leaf)) 42572 [42573] (.node (.node (.node .leaf 42574 [42575] .leaf) 42576 [42577] .leaf) 42578 [42579] (.node (.node .leaf 42580 [42581] .leaf) 42582 [42583] .leaf))) 42584 [42585] (.node (.node (.node (.node .leaf 42586 [42587] .leaf) 42588 [42589] .leaf) 42590 [42591] (.node (.node .leaf 42592 [42593] .leaf) 42594 [42595] .leaf)) 42596 [42597] (.node (.node (.node .leaf 42598 [42599] .leaf) 42600 [42601] .leaf) 42602 [42603] (.node (.node .leaf 42604 [42605] .leaf) 42624 [42625] .leaf)))))) 42626 [42627] (.node (.node (.node (.node (.node (.node (.node .leaf 42628 [42629] .leaf) 42630 [42631] .leaf) 42632 [42633] (.node (.node .leaf 42634 [42635] .leaf) 42636 [42637] .leaf)) 42638 [42639] (.node (.node (.node .leaf 42640 [42641] .leaf) 42642 [42643] .leaf) 42644 [42645] (.node (.node .leaf 42646 [42647] .leaf) 42648 [42649] .leaf))) 42650 [42651] (.node (.node (.node (.node .leaf 42786 [42787] .leaf) 42788 [42789] .leaf) 42790 [42791] (.node (.node .leaf 42792 [42793] .leaf) 42794 [42795] .leaf)) 42796 [42797] (.node (.node (.node .leaf 42798 [42799] .leaf) 42802 [42803] .leaf) 42804 [42805] (.node (.node .leaf 42806 [42807] .leaf) 42808 [42809] .leaf)))) 42810 [42811] (.node (.node (.node (.node (.node .leaf 42812 [42813] .leaf) 42814 [42815] .leaf) 42816 [42817] (.node (.node .leaf 42818 [42819] .leaf) 42820 [42821] .leaf)) 42822 [42823] (.node (.node (.node .leaf 42824 [42825] .leaf) 42826 [42827] .leaf) 42828 [42829] (.node (.node .leaf 42830 [42831] .leaf) 42832 [42833] .leaf))) 42834 [42835] (.node (.node (.node (.node .leaf 42836 [42837] .leaf) 42838 [42839] .leaf) 42840 [42841] (.node (.node .leaf 42842 [42843] .leaf) 42844 [42845] .leaf)) 42846 [42847] (.node (.node (.node .leaf 42848 [42849] .leaf) 42850 [42851] .leaf) 42852 [42853] (.node (.node .leaf 42854 [42855] .leaf) 42856 [42857] .leaf))))) 42858 [42859] (.node (.node (.node (.node (.node (.node .leaf 42860 [42861] .leaf) 42862 [42863] .leaf) 42873 [42874] (.node (.node .leaf 42875 [42876] .leaf) 42877 [7545] .leaf)) 42878 [42879] (.node (.node (.node .leaf 42880 [42881] .leaf) 42882 [42883] .leaf) 42884 [42885] (.node (.node .leaf 42886 [42887] .leaf) 42891 [42892] .leaf))) 42893 [613] (.node (.node (.node (.node .leaf 42896 [42897] .leaf) 42898 [42899] .leaf) 42902 [42903] (.node (.node .leaf 42904 [42905] .leaf) 42906 [42907] .leaf)) 42908 [42909] (.node (.node (.node .leaf 42910 [42911] .leaf) 42912 [42913] .leaf) 42914 [42915] (.node (.node .leaf 42916 [42917] .leaf) 42918 [42919] .leaf)))) 42920 [42921] (.node (.node (.node (.node (.node .leaf 42922 [614] .leaf) 42923 [604] .leaf) 42924 [609] (.node (.node .leaf 42925 [620] .leaf) 42926 [618] .leaf)) 42928 [670] (.node (.node (.node .leaf 42929 [647] .leaf) 42930 [669] .leaf) 42931 [43859] (.node (.node .leaf 42932 [42933] .leaf) 42934 [42935] .leaf))) 42936 [42937] (.node (.node (.node (.node .leaf 42938 [42939] .leaf) 42940 [42941] .leaf) 42942 [42943] (.node (.node .leaf 42944 [42945] .leaf) 42946 [42947] .leaf)) 42948 [42900] (.node (.node (.node .leaf 42949 [642] .leaf) 42950 [7566] .leaf) 42951 [42952] (.node .leaf 42953 [42954] .leaf)))))))) 42960 [42961] (.node (.node (.node (.node (.node (.node (.node (.node (.node .leaf 42966 [42967] .leaf) 42968 [42969] .leaf) 42997 [42998] (.node (.node .leaf 43888 [5024] .leaf) 43889 [5025] .leaf)) 43890 [5026] (.node (.node (.node .leaf 43891 [5027] .leaf) 43892 [5028] .leaf) 43893 [5029] (.node (.node .leaf 43894 [5030] .leaf) 43895 [5031] .leaf))) 43896 [5032] (.node (.node (.node (.node .leaf 43897 [5033] .leaf) 43898 [5034] .leaf) 43899 [5035] (.node (.node .leaf 43900 [5036] .leaf) 43901 [5037] .leaf)) 43902 [5038] (.node (.node (.node .leaf 43903 [5039] .leaf) 43904 [5040] .leaf) 43905 [5041] (.node (.node .leaf 43906 [5042] .leaf) 43907 [5043] .leaf)))) 43908 [5044] (.node (.node (.node (.node (.node .leaf 43909 [5045] .leaf) 43910 [5046] .leaf) 43911 [5047] (.node (.node .leaf 43912 [5048] .leaf) 43913 [5049] .leaf)) 43914 [5050] (.node (.node (.node .leaf 43915 [5051] .leaf) 43916 [5052] .leaf) 43917 [5053] (.node (.node .leaf 43918 [5054] .leaf) 43919 [5055] .leaf))) 43920 [5056] (.node (.node (.node (.node .leaf 43921 [5057] .leaf) 43922 [5058] .leaf) 43923 [5059] (.node (.node .leaf 43924 [5060] .leaf) 43925 [5061] .leaf)) 43926 [5062] (.node (.node (.node .leaf 43927 [5063] .leaf) 43928 [5064] .leaf) 43929 [5065] (.node (.node .leaf 43930 [5066] .leaf) 43931 [5067] .leaf))))) 43932 [5068] (.node (.node (.node (.node (.node (.node .leaf 43933 [5069] .leaf) 43934 [5070] .leaf) 43935 [5071] (.node (.node .leaf 43936 [5072] .leaf) 43937 [5073] .leaf)) 43938 [5074] (.node (.node (.node .leaf 43939 [5075] .leaf) 43940 [5076] .leaf) 43941 [5077] (.node (.node .leaf 43942 [5078] .leaf) 43943 [5079] .leaf))) 43944 [5080] (.node (.node (.node (.node .leaf 43945 [5081] .leaf) 43946 [5082] .leaf) 43947 [5083] (.node (.node .leaf 43948 [5084] .leaf) 43949 [5085] .leaf)) 43950 [5086] (.node (.node (.node .leaf 43951 [5087] .leaf) 43952 [5088] .leaf) 43953 [5089] (.node (.node .leaf 43954 [5090] .leaf) 43955 [5091] .leaf)))) 43956 [5092] (.node (.node (.node (.node (.node .leaf 43957 [5093] .leaf) 43958 [5094] .leaf) 43959 [5095] (.node (.node .leaf 43960 [5096] .leaf) 43961 [5097] .leaf)) 43962 [5098] (.node (.node (.node .leaf 43963 [5099] .leaf) 43964 [5100] .leaf) 43965 [5101] (.node (.node .leaf 43966 [5102] .leaf) 43967 [5103] .leaf))) 64256 [102, 102] (.node (.node (.node (.node .leaf 64257 [102, 105] .leaf) 64258 [102, 108] .leaf) 64259 [102, 102, 105] (.node (.node .leaf 64260 [102, 102, 108] .leaf) 64261 [115, 116] .leaf)) 64262 [115, 116] (.node (.node (.node .leaf 64275 [1396, 1398] .leaf) 64276 [1396, 1381] .leaf) 64277 [1396, 1387] (.node (.node .leaf 64278 [1406, 1398] .leaf) 64279 [1396, 1389] .leaf)))))) 65313 [65345] (.node (.node (.node (.node (.node (.node (.node .leaf 65314 [65346] .leaf) 65315 [65347] .leaf) 65316 [65348] (.node (.node .leaf 65317 [65349] .leaf) 65318 [65350] .leaf)) 65319 [65351] (.node (.node (.node .leaf 65320 [65352] .leaf) 65321 [65353] .leaf) 65322 [65354] (.node (.node .leaf 65323 [65355] .leaf) 65324 [65356] .leaf))) 65325 [65357] (.node (.node (.node (.node .leaf 65326 [65358] .leaf) 65327 [65359] .leaf) 65328 [65360] (.node (.node .leaf 65329 [65361] .leaf) 65330 [65362] .leaf)) 65331 [65363] (.node (.node (.node .leaf 65332 [65364] .leaf) 65333 [65365] .leaf) 65334 [65366] (.node (.node .leaf 65335 [65367] .leaf) 65336 [65368] .leaf)))) 65337 [65369] (.node (.node (.node (.node (.node .leaf 65338 [65370] .leaf) 66560 [66600] .leaf) 66561 [66601] (.node (.node .leaf 66562 [66602] .leaf) 66563 [66603] .leaf)) 66564 [66604] (.node (.node (.node .leaf 66565 [66605] .leaf) 66566 [66606] .leaf) 66567 [66607] (.node (.node .leaf 66568 [66608] .leaf) 66569 [66609] .leaf))) 66570 [66610] (.node (.node (.node (.node .leaf 66571 [66611] .leaf) 66572 [66612] .leaf) 66573 [66613] (.node (.node .leaf 66574 [66614] .leaf) 66575 [66615] .leaf)) 66576 [66616] (.node (.node (.node .leaf 66577 [66617] .leaf) 66578 [66618] .leaf) 66579 [66619] (.node (.node .leaf 66580 [66620] .leaf) 66581 [66621] .leaf))))) 66582 [66622] (.node (.node (.node (.node (.node (.node .leaf 66583 [66623] .leaf) 66584 [66624] .leaf) 66585 [66625] (.node (.node .leaf 66586 [66626] .leaf) 66587 [66627] .leaf)) 66588 [66628] (.node (.node (.node .leaf 66589 [66629] .leaf) 66590 [66630] .leaf) 66591 [66631] (.node (.node .leaf 66592 [66632] .leaf) 66593 [66633] .leaf))) 66594 [66634] (.node (.node (.node (.node .leaf 66595 [66635] .leaf) 66596 [66636] .leaf) 66597 [66637] (.node (.node .leaf 66598 [66638] .leaf) 66599 [66639] .leaf)) 66736 [66776] (.node (.node (.node .leaf 66737 [66777] .leaf) 66738 [66778] .leaf) 66739 [66779] (.node (.node .leaf 66740 [66780] .leaf) 66741 [66781] .leaf)))) 66742 [66782] (.node (.node (.node (.node (.node .leaf 66743 [66783] .leaf) 66744 [66784] .leaf) 66745 [66785] (.node (.node .leaf 66746 [66786] .leaf) 66747 [66787] .leaf)) 66748 [66788] (.node (.node (.node .leaf 66749 [66789] .leaf) 66750 [66790] .leaf) 66751 [66791] (.node (.node .leaf 66752 [66792] .leaf) 66753 [66793] .leaf))) 66754 [66794] (.node (.node (.node (.node .leaf 66755 [66795] .leaf) 66756 [66796] .leaf) 66757 [66797] (.node (.node .leaf 66758 [66798] .leaf) 66759 [66799] .leaf)) 66760 [66800] (.node (.node (.node .leaf 66761 [66801] .leaf) 66762 [66802] .leaf) 66763 [66803] (.node .leaf 66764 [66804] .leaf))))))) 66765 [66805] (.node (.node (.node (.node (.node (.node (.node (.node .leaf 66766 [66806] .leaf) 66767 [66807] .leaf) 66768 [66808] (.node (.node .leaf 66769 [66809] .leaf) 66770 [66810] .leaf)) 66771 [66811] (.node (.node (.node .leaf 66928 [66967] .leaf) 66929 [66968] .leaf) 66930 [66969] (.node (.node .leaf 66931 [66970] .leaf) 66932 [66971] .leaf))) 66933 [66972] (.node (.node (.node (.node .leaf 66934 [66973] .leaf) 66935 [66974] .leaf) 66936 [66975] (.node (.node .leaf 66937 [66976] .leaf) 66938 [66977] .leaf)) 66940 [66979] (.node (.node (.node .leaf 66941 [66980] .leaf) 66942 [66981] .leaf) 66943 [66982] (.node (.node .leaf 66944 [66983] .leaf) 66945 [66984] .leaf)))) 66946 [66985] (.node (.node (.node (.node (.node .leaf 66947 [66986] .leaf) 66948 [66987] .leaf) 66949 [66988] (.node (.node .leaf 66950 [66989] .leaf) 66951 [66990] .leaf)) 66952 [66991] (.node (.node (.node .leaf 66953 [66992] .leaf) 66954 [66993] .leaf) 66956 [66995] (.node (.node .leaf 66957 [66996] .leaf) 66958 [66997] .leaf))) 66959 [66998] (.node (.node (.node (.node .leaf 66960 [66999] .leaf) 66961 [67000] .leaf) 66962 [67001] (.node (.node .leaf 66964 [67003] .leaf) 66965 [67004] .leaf)) 68736 [68800] (.node (.node (.node .leaf 68737 [68801] .leaf) 68738 [68802] .leaf) 68739 [68803] (.node (.node .leaf 68740 [68804] .leaf) 68741 [68805] .leaf))))) 68742 [68806] (.node (.node (.node (.node (.node (.node .leaf 68743 [68807] .leaf) 68744 [68808] .leaf) 68745 [68809] (.node (.node .leaf 68746 [68810] .leaf) 68747 [68811] .leaf)) 68748 [68812] (.node (.node (.node .leaf 68749 [68813] .leaf) 68750 [68814] .leaf) 68751 [68815] (.node (.node .leaf 68752 [68816] .leaf) 68753 [68817] .leaf))) 68754 [68818] (.node (.node (.node (.node .leaf 68755 [68819] .leaf) 68756 [68820] .leaf) 68757 [68821] (.node (.node .leaf 68758 [68822] .leaf) 68759 [68823] .leaf)) 68760 [68824] (.node (.node (.node .leaf 68761 [68825] .leaf) 68762 [68826] .leaf) 68763 [68827] (.node (.node .leaf 68764 [68828] .leaf) 68765 [68829] .leaf)))) 68766 [68830] (.node (.node (.node (.node (.node .leaf 68767 [68831] .leaf) 68768 [68832] .leaf) 68769 [68833] (.node (.node .leaf 68770 [68834] .leaf) 68771 [68835] .leaf)) 68772 [68836] (.node (.node (.node .leaf 68773 [68837] .leaf) 68774 [68838] .leaf) 68775 [68839] (.node (.node .leaf 68776 [68840] .leaf) 68777 [68841] .leaf))) 68778 [68842] (.node (.node (.node (.node .leaf 68779 [68843] .leaf) 68780 [68844] .leaf) 68781 [68845] (.node (.node .leaf 68782 [68846] .leaf) 68783 [68847] .leaf)) 68784 [68848] (.node (.node (.node .leaf 68785 [68849] .leaf) 68786 [68850] .leaf) 71840 [71872] (.node (.node .leaf 71841 [71873] .leaf) 71842 [71874] .leaf)))))) 71843 [71875] (.node (.node (.node (.node (.node (.node (.node .leaf 71844 [71876] .leaf) 71845 [71877] .leaf) 71846 [71878] (.node (.node .leaf 71847 [71879] .leaf) 71848 [71880] .leaf)) 71849 [71881] (.node (.node (.node .leaf 71850 [71882] .leaf) 71851 [71883] .leaf) 71852 [71884] (.node (.node .leaf 71853 [71885] .leaf) 71854 [71886] .leaf))) 71855 [71887] (.node (.node (.node (.node .leaf 71856 [71888] .leaf) 71857 [71889] .leaf) 71858 [71890] (.node (.node .leaf 71859 [71891] .leaf) 71860 [71892] .leaf)) 71861 [71893] (.node (.node (.node .leaf 71862 [71894] .leaf) 71863 [71895] .leaf) 71864 [71896] (.node (.node .leaf 71865 [71897] .leaf) 71866 [71898] .leaf)))) 71867 [71899] (.node (.node (.node (.node (.node .leaf 71868 [71900] .leaf) 71869 [71901] .leaf) 71870 [71902] (.node (.node .leaf 71871 [71903] .leaf) 93760 [93792] .leaf)) 93761 [93793] (.node (.node (.node .leaf 93762 [93794] .leaf) 93763 [93795] .leaf) 93764 [93796] (.node (.node .leaf 93765 [93797] .leaf) 93766 [93798] .leaf))) 93767 [93799] (.node (.node (.node (.node .leaf 93768 [93800] .leaf) 93769 [93801] .leaf) 93770 [93802] (.node (.node .leaf 93771 [93803] .leaf) 93772 [93804] .leaf)) 93773 [93805] (.node (.node (.node .leaf 93774 [93806] .leaf) 93775 [93807] .leaf) 93776 [93808] (.node (.node .leaf 93777 [93809] .leaf) 93778 [93810] .leaf))))) 93779 [93811] (.node (.node (.node (.node (.node (.node .leaf 93780 [93812] .leaf) 93781 [93813] .leaf) 93782 [93814] (.node (.node .leaf 93783 [93815] .leaf) 93784 [93816] .leaf)) 93785 [93817] (.node (.node (.node .leaf 93786 [93818] .leaf) 93787 [93819] .leaf) 93788 [93820] (.node (.node .leaf 93789 [93821] .leaf) 93790 [93822] .leaf))) 93791 [93823] (.node (.node (.node (.node .leaf 125184 [125218] .leaf) 125185 [125219] .leaf) 125186 [125220] (.node (.node .leaf 125187 [125221] .leaf) 125188 [125222] .leaf)) 125189 [125223] (.node (.node (.node .leaf 125190 [125224] .leaf) 125191 [125225] .leaf) 125192 [125226] (.node (.node .leaf 125193 [125227] .leaf) 125194 [125228] .leaf)))) 125195 [125229] (.node (.node (.node (.node (.node .leaf 125196 [125230] .leaf) 125197 [125231] .leaf) 125198 [125232] (.node (.node .leaf 125199 [125233] .leaf) 125200 [125234] .leaf)) 125201 [125235] (.node (.node (.node .leaf 125202 [125236] .leaf) 125203 [125237] .leaf) 125204 [125238] (.node (.node .leaf 125205 [125239] .leaf) 125206 [125240] .leaf))) 125207 [125241] (.node (.node (.node (.node .leaf 125208 [125242] .leaf) 125209 [125243] .leaf) 125210 [125244] (.node (.node .leaf 125211 [125245] .leaf) 125212 [125246] .leaf)) 125213 [125247] (.node (.node (.node .leaf 125214 [125248] .leaf) 125215 [125249] .leaf) 125216 [125250] (.node .leaf 125217 [125251] .leaf))))))))))

/-- Rust `char::is_control`: the Unicode Cc general category. -/
def isCtrlN (n : Nat) : Bool :=
  n < 0x20 || (0x7F ≤ n && n ≤ 0x9F)

/-- Rust `char::is_whitespace`: the Unicode White_Space property. -/
def isWSN (n : Nat) : Bool :=
  (0x9 ≤ n && n ≤ 0xD) || n = 0x20 || n = 0x85 || n = 0xA0 || n = 0x1680 ||
  (0x2000 ≤ n && n ≤ 0x200A) || n = 0x2028 || n = 0x2029 || n = 0x202F ||
  n = 0x205F || n = 0x3000

def isCtrlC (c : Char) : Bool := isCtrlN c.toNat

def isWSC (c : Char) : Bool := isWSN c.toNat

/-- Full Unicode case folding of one codepoint, with the Turkic special
mappings (CaseFolding.txt T entries: 0049 ↦ 0131 and 0130 ↦ 0069) replacing
the default entries when the locale is Turkic. -/
def foldCharN (locale : Locale) (n : Nat) : List Nat :=
  if locale = Locale.Turkic && n = 0x49 then [0x131]
  else if locale = Locale.Turkic && n = 0x130 then [0x69]
  else
    match lookupT foldTree n with
    | some out => out
    | none => [n]

def foldChar (locale : Locale) (c : Char) : List Char :=
  (foldCharN locale c.toNat).map Char.ofNat

/-- One step of the output loop of `make_key`: a folded character that is a
control or whitespace character becomes an underscore. -/
def replaceChar (c : Char) : Char :=
  if isCtrlC c || isWSC c then '_' else c

def canonList (locale : Locale) (l : List Char) : List Char :=
  (l.flatMap (foldChar locale)).map replaceChar

/-- The title canonicalization of `make_key`: case-fold the title with the
chosen locale, then replace control/whitespace characters by underscores. -/
def canonTitle (locale : Locale) (title : String) : String :=
  String.mk (canonList locale title.toList)

/-- The 46 language codes mapped to `Locale::Turkic` in `make_key`. -/
def turkicCodes : List String :=
  ["aib", "alt", "atv", "az", "ba", "chg", "cjs", "clw", "crh", "cv", "dlg",
   "gag", "ili", "jct", "kaa", "kdr", "kim", "kjh", "kk", "klj", "kmz", "krc",
   "kum", "ky", "nog", "ota", "otk", "oui", "qwm", "qxq", "sah", "slq", "sty",
   "tk", "tr", "tt", "tyv", "ug", "uum", "uz", "xbo", "xpc", "xqa", "ybe",
   "zkh", "zkz"]

/-- The 46-arm `match` on `lang` in `make_key` choosing the folding locale. -/
def locale_of (lang : String) : Locale :=
  if lang = "aib" then Locale.Turkic
    else if lang = "alt" then Locale.Turkic
    else if lang = "atv" then Locale.Turkic
    else if lang = "az" then Locale.Turkic
    else if lang = "ba" then Locale.Turkic
    else if lang = "chg" then Locale.Turkic
    else if lang = "cjs" then Locale.Turkic
    else if lang = "clw" then Locale.Turkic
    else if lang = "crh" then Locale.Turkic
    else if lang = "cv" then Locale.Turkic
    else if lang = "dlg" then Locale.Turkic
    else if lang = "gag" then Locale.Turkic
    else if lang = "ili" then Locale.Turkic
    else if lang = "jct" then Locale.Turkic
    else if lang = "kaa" then Locale.Turkic
    else if lang = "kdr" then Locale.Turkic
    else if lang = "kim" then Locale.Turkic
    else if lang = "kjh" then Locale.Turkic
    else if lang = "kk" then Locale.Turkic
    else if lang = "klj" then Locale.Turkic
    else if lang = "kmz" then Locale.Turkic
    else if lang = "krc" then Locale.Turkic
    else if lang = "kum" then Locale.Turkic
    else if lang = "ky" then Locale.Turkic
    else if lang = "nog" then Locale.Turkic
    else if lang = "ota" then Locale.Turkic
    else if lang = "otk" then Locale.Turkic
    else if lang = "oui" then Locale.Turkic
    else if lang = "qwm" then Locale.Turkic
    else if lang = "qxq" then Locale.Turkic
    else if lang = "sah" then Locale.Turkic
    else if lang = "slq" then Locale.Turkic
    else if lang = "sty" then Locale.Turkic
    else if lang = "tk" then Locale.Turkic
    else if lang = "tr" then Locale.Turkic
    else if lang = "tt" then Locale.Turkic
    else if lang = "tyv" then Locale.Turkic
    else if lang = "ug" then Locale.Turkic
    else if lang = "uum" then Locale.Turkic
    else if lang = "uz" then Locale.Turkic
    else if lang = "xbo" then Locale.Turkic
    else if lang = "xpc" then Locale.Turkic
    else if lang = "xqa" then Locale.Turkic
    else if lang = "ybe" then Locale.Turkic
    else if lang = "zkh" then Locale.Turkic
    else if lang = "zkz" then Locale.Turkic
    else Locale.NonTurkic

/-- `make_key` from `src/main.rs`: emit `lang`, then `".wiki" ++ site` when
`site` is non-empty, then `':'`, then the canonicalized title. -/
def make_key (lang site title : String) : String :=
  let s := lang
  let s := if site = "" then s else s ++ ".wiki" ++ site
  let s := s ++ ":"
  s ++ canonTitle (locale_of lang) title

/-- Rust `str::split("wiki")` on the character list of a site-key: split at
every leftmost, non-overlapping occurrence of the marker `"wiki"`. -/
def wikiSplit : List Char → List (List Char)
  | 'w' :: 'i' :: 'k' :: 'i' :: rest => [] :: wikiSplit rest
  | c :: cs =>
    match wikiSplit cs with
    | [] => [[c]]
    | s :: ss => (c :: s) :: ss
  | [] => [[]]

def segStrings (key : String) : List String :=
  (wikiSplit key.toList).map (fun l => String.mk l)

/-- The site-key decomposition inside `process`: the first two segments of
the split become language and site, with the `"und"` substitution and the
commons/species swap; without a second segment no key is produced. -/
def siteSplit (key : String) : Option (String × String) :=
  match segStrings key with
  | lang0 :: site :: _ =>
    let lang := if lang0 = "" then "und" else lang0
    if site = "" && (lang = "commons" || lang = "species") then some ("und", lang)
    else some (lang, site)
  | _ => none

structure Sitelink where
  title : String
  deriving DecidableEq, Repr

structure Entity where
  id : String
  sitelinks : List (String × Sitelink)
  deriving DecidableEq, Repr

/-- The store table: an association list standing for the LMDB table. -/
abbrev Store := List (String × String)

/-- `lmdb` `put` with empty write flags: overwrite on duplicate key. -/
def upsert (store : Store) (k v : String) : Store :=
  if store.any (fun p => p.1 == k) then
    store.map (fun p => if p.1 == k then (k, v) else p)
  else store ++ [(k, v)]

def lookupStore (store : Store) (k : String) : Option String :=
  (store.find? (fun p => p.1 == k)).map (fun p => p.2)

/-- The `(key, entity id)` pairs put by the sitelinks loop of `process`,
in sitelink order. -/
def entityPairs (e : Entity) : List (String × String) :=
  e.sitelinks.flatMap (fun kp =>
    match siteSplit kp.1 with
    | some (lang, site) => [(make_key lang site kp.2.title, e.id)]
    | none => [])

def applyPairs (store : Store) (pairs : List (String × String)) : Store :=
  pairs.foldl (fun s kv => upsert s kv.1 kv.2) store

def applyEntity (store : Store) (e : Entity) : Store :=
  applyPairs store (entityPairs e)

/-- Per-line preprocessing in `process`: lines shorter than 5 bytes are
dropped, then a single trailing comma is removed. -/
def prepLine (line : String) : Option String :=
  if line.utf8ByteSize < 5 then none
  else if line.toList.getLast? = some ',' then some (String.mk line.toList.dropLast)
  else some line

structure PState where
  numLines : Nat
  store : Store

/-- The main loop of `process` over the remaining lines: count qualifying
lines, stop once the counter exceeds 10000 (the `if true && num_lines > 10000`
break), otherwise decode and ingest. -/
def go (decode : String → Option Entity) : List String → PState → Store
  | [], st => st.store
  | rawLine :: rest, st =>
    match prepLine rawLine with
    | none => go decode rest st
    | some line =>
      let n := st.numLines + 1
      if n > 10000 then st.store
      else
        match decode line with
        | none => go decode rest ⟨n, st.store⟩
        | some e =>
          if e.sitelinks.isEmpty then go decode rest ⟨n, st.store⟩
          else go decode rest ⟨n, applyEntity st.store e⟩

/-- `process` from `src/main.rs`, with the JSON decoder abstracted as a
parameter and the store starting empty. -/
def process (decode : String → Option Entity) (lines : List String) : Store :=
  go decode lines ⟨0, []⟩

/-- The `(key, entity id)` pairs `process` would put, in put order. -/
def goPairs (decode : String → Option Entity) : List String → Nat → List (String × String)
  | [], _ => []
  | rawLine :: rest, m =>
    match prepLine rawLine with
    | none => goPairs decode rest m
    | some line =>
      let n := m + 1
      if n > 10000 then []
      else
        match decode line with
        | none => goPairs decode rest n
        | some e =>
          (if e.sitelinks.isEmpty then [] else entityPairs e) ++ goPairs decode rest n

def collectPairs (decode : String → Option Entity) (lines : List String) : List (String × String) :=
  goPairs decode lines 0

def buildStore (pairs : List (String × String)) : Store :=
  applyPairs [] pairs

/-- The value of the last pair with the given key, if any. -/
def lastWins (pairs : List (String × String)) (k : String) : Option String :=
  ((pairs.filter (fun p => p.1 == k)).getLast?).map (fun p => p.2)

/-- Fixture: one entity `Q76` with sitelink `enwiki ↦ "Barack Obama"`. -/
def fixtureEntity : Entity :=
  ⟨"Q76", [("enwiki", ⟨"Barack Obama"⟩)]⟩

def q76Line : String := "WIKIDATA-ENTITY-Q76"

def junkLine : String := "JUNK-UNPARSEABLE"

def badLine : String := "MALFORMED-RECORD"

/-- Fixture decoder: exactly one line decodes, to `fixtureEntity`. -/
def decodeFixture (l : String) : Option Entity :=
  if l = q76Line then some fixtureEntity else none
/-! ## Facts about the case-folding table -/

/-- A folded-output codepoint is "good": it does not itself appear in the
folding table, is neither control nor whitespace, is not one of the two
Turkic-special codepoints, and is a valid scalar value. -/
def goodOut (d : Nat) : Bool :=
  (lookupT foldTree d).isNone && !(isCtrlN d) && !(isWSN d) &&
  (d != 0x49) && (d != 0x130) && (d < 0xD800 || (0xDFFF < d && d < 0x110000))

theorem treeAll_lookup {p : Nat → List Nat → Bool} (t : FTree) :
    treeAll p t = true → ∀ (c : Nat) (v : List Nat), lookupT t c = some v → p c v = true := by
  induction t with
  | leaf => intro _ c v hv; simp [lookupT] at hv
  | node l k w r ihl ihr =>
    intro ht c v hv
    rw [treeAll] at ht
    simp only [Bool.and_eq_true] at ht
    obtain ⟨⟨hpk, hl⟩, hr⟩ := ht
    rw [lookupT] at hv
    by_cases h1 : c < k
    · rw [if_pos h1] at hv
      exact ihl hl c v hv
    · rw [if_neg h1] at hv
      by_cases h2 : c = k
      · rw [if_pos h2] at hv
        injection hv with hv
        subst hv; subst h2; exact hpk
      · rw [if_neg h2] at hv
        exact ihr hr c v hv

theorem tableOK : treeAll (fun _ v => v.all goodOut) foldTree = true := by decide

theorem toNat_ofNat_valid {n : Nat} (h : n.isValidChar) : (Char.ofNat n).toNat = n := by
  unfold Char.ofNat
  rw [dif_pos h]
  rfl

/-! ## Idempotence of the canonicalization (claim C4) -/

/-- A character that canonicalization leaves alone: it folds to itself and is
not replaced by an underscore. -/
def canonFixed (locale : Locale) (c : Char) : Prop :=
  foldChar locale c = [c] ∧ replaceChar c = c

theorem canonList_of_fixed (locale : Locale) (l : List Char)
    (h : ∀ c ∈ l, canonFixed locale c) : canonList locale l = l := by
  induction l with
  | nil => rfl
  | cons c l ih =>
    have hc := h c (List.mem_cons_self c l)
    have hl := ih (fun d hd => h d (List.mem_cons_of_mem c hd))
    simp only [canonList, List.flatMap_cons, List.map_append] at *
    rw [hc.1]
    simp only [List.map_cons, List.map_nil, hc.2]
    rw [hl]
    rfl

theorem goodOut_fixed {locale : Locale} {m : Nat} (h : goodOut m = true) :
    canonFixed locale (Char.ofNat m) := by
  simp only [goodOut, Bool.and_eq_true, Option.isNone_iff_eq_none, Bool.not_eq_true',
    bne_iff_ne, ne_eq, Bool.or_eq_true, decide_eq_true_eq, Bool.and_eq_true] at h
  obtain ⟨⟨⟨⟨⟨hnone, hctrl⟩, hws⟩, h49⟩, h130⟩, hval⟩ := h
  have hvalid : m.isValidChar := by
    rcases hval with h | ⟨h1, h2⟩
    · exact Or.inl h
    · exact Or.inr ⟨h1, h2⟩
  have htn : (Char.ofNat m).toNat = m := toNat_ofNat_valid hvalid
  constructor
  · rw [foldChar, foldCharN, htn]
    have : (locale = Locale.Turkic && m = 0x49) = false := by
      cases locale <;> simp [h49]
    rw [this]
    have : (locale = Locale.Turkic && m = 0x130) = false := by
      cases locale <;> simp [h130]
    rw [this]
    simp only [Bool.false_eq_true, if_false, hnone, List.map_cons, List.map_nil]
  · rw [replaceChar, isCtrlC, isWSC, htn, hctrl, hws]
    rfl

theorem not_replaced_of_good {m : Nat} (hctrl : isCtrlN m = false) (hws : isWSN m = false)
    (hvalid : m.isValidChar) : replaceChar (Char.ofNat m) = Char.ofNat m := by
  rw [replaceChar, isCtrlC, isWSC, toNat_ofNat_valid hvalid, hctrl, hws]
  rfl

theorem underscore_fixed (locale : Locale) : canonFixed locale '_' := by
  cases locale <;> exact ⟨by decide, by decide⟩

theorem mem_canonChar_fixed (locale : Locale) (c : Char) :
    ∀ d ∈ (foldChar locale c).map replaceChar, canonFixed locale d := by
  intro d hd
  obtain ⟨e, he, rfl⟩ := List.mem_map.mp hd
  rw [foldChar] at he
  obtain ⟨m, hm, rfl⟩ := List.mem_map.mp he
  by_cases hrep : (isCtrlC (Char.ofNat m) || isWSC (Char.ofNat m)) = true
  · rw [replaceChar, if_pos hrep]
    exact underscore_fixed locale
  · rw [replaceChar, if_neg hrep]
    rw [foldCharN] at hm
    by_cases h49 : (locale = Locale.Turkic && c.toNat = 0x49) = true
    · rw [if_pos h49] at hm
      simp only [List.mem_singleton] at hm
      subst hm
      simp only [Bool.and_eq_true, decide_eq_true_eq] at h49
      rw [h49.1]
      exact ⟨by decide, by decide⟩
    · rw [Bool.not_eq_true] at h49
      rw [if_neg (by simp [h49])] at hm
      by_cases h130 : (locale = Locale.Turkic && c.toNat = 0x130) = true
      · rw [if_pos h130] at hm
        simp only [List.mem_singleton] at hm
        subst hm
        simp only [Bool.and_eq_true, decide_eq_true_eq] at h130
        rw [h130.1]
        exact ⟨by decide, by decide⟩
      · rw [Bool.not_eq_true] at h130
        rw [if_neg (by simp [h130])] at hm
        cases hlook : lookupT foldTree c.toNat with
        | some out =>
          rw [hlook] at hm
          have hgood : (fun (_ : Nat) (v : List Nat) => v.all goodOut) c.toNat out = true :=
            treeAll_lookup foldTree tableOK c.toNat out hlook
          have : goodOut m = true := by
            simp only [List.all_eq_true] at hgood
            exact hgood m hm
          exact goodOut_fixed this
        | none =>
          rw [hlook] at hm
          simp only [List.mem_singleton] at hm
          subst hm
          have hofc : Char.ofNat c.toNat = c := Char.ofNat_toNat c
          rw [hofc] at hrep ⊢
          constructor
          · rw [foldChar, foldCharN]
            rw [if_neg (by simp [h49]), if_neg (by simp [h130]), hlook]
            simp only [List.map_cons, List.map_nil]
            rw [hofc]
          · rw [replaceChar, if_neg hrep]

theorem canonList_single (locale : Locale) (c : Char) :
    canonList locale [c] = (foldChar locale c).map replaceChar := by
  simp [canonList]

theorem canonList_append (locale : Locale) (a b : List Char) :
    canonList locale (a ++ b) = canonList locale a ++ canonList locale b := by
  simp [canonList, List.flatMap_append]

theorem canonList_idem (locale : Locale) (l : List Char) :
    canonList locale (canonList locale l) = canonList locale l := by
  induction l with
  | nil => rfl
  | cons c l ih =>
    have hsplit : (c :: l) = [c] ++ l := rfl
    rw [hsplit, canonList_append, canonList_append, ih]
    have hfix : canonList locale (canonList locale [c]) = canonList locale [c] := by
      apply canonList_of_fixed
      intro d hd
      rw [canonList_single] at hd
      exact mem_canonChar_fixed locale c d hd
    rw [hfix]

/-- C4: title canonicalization is idempotent: for every language code and
every input string, canonicalizing the result of canonicalization (case
folding with the locale chosen for the language, then replacing
control/whitespace characters with underscores) yields the same string as
canonicalizing once. -/
theorem canonTitle_idem (lang : String) (s : String) :
    canonTitle (locale_of lang) (canonTitle (locale_of lang) s) =
      canonTitle (locale_of lang) s := by
  unfold canonTitle
  exact congrArg String.mk (canonList_idem (locale_of lang) s.toList)

/-! ## The Turkic locale choice (claim C5) -/

theorem locale_of_turkic_iff (lang : String) :
    locale_of lang = Locale.Turkic ↔ lang ∈ turkicCodes := by
  by_cases h1 : lang = "aib"
  · subst h1; decide
  by_cases h2 : lang = "alt"
  · subst h2; decide
  by_cases h3 : lang = "atv"
  · subst h3; decide
  by_cases h4 : lang = "az"
  · subst h4; decide
  by_cases h5 : lang = "ba"
  · subst h5; decide
  by_cases h6 : lang = "chg"
  · subst h6; decide
  by_cases h7 : lang = "cjs"
  · subst h7; decide
  by_cases h8 : lang = "clw"
  · subst h8; decide
  by_cases h9 : lang = "crh"
  · subst h9; decide
  by_cases h10 : lang = "cv"
  · subst h10; decide
  by_cases h11 : lang = "dlg"
  · subst h11; decide
  by_cases h12 : lang = "gag"
  · subst h12; decide
  by_cases h13 : lang = "ili"
  · subst h13; decide
  by_cases h14 : lang = "jct"
  · subst h14; decide
  by_cases h15 : lang = "kaa"
  · subst h15; decide
  by_cases h16 : lang = "kdr"
  · subst h16; decide
  by_cases h17 : lang = "kim"
  · subst h17; decide
  by_cases h18 : lang = "kjh"
  · subst h18; decide
  by_cases h19 : lang = "kk"
  · subst h19; decide
  by_cases h20 : lang = "klj"
  · subst h20; decide
  by_cases h21 : lang = "kmz"
  · subst h21; decide
  by_cases h22 : lang = "krc"
  · subst h22; decide
  by_cases h23 : lang = "kum"
  · subst h23; decide
  by_cases h24 : lang = "ky"
  · subst h24; decide
  by_cases h25 : lang = "nog"
  · subst h25; decide
  by_cases h26 : lang = "ota"
  · subst h26; decide
  by_cases h27 : lang = "otk"
  · subst h27; decide
  by_cases h28 : lang = "oui"
  · subst h28; decide
  by_cases h29 : lang = "qwm"
  · subst h29; decide
  by_cases h30 : lang = "qxq"
  · subst h30; decide
  by_cases h31 : lang = "sah"
  · subst h31; decide
  by_cases h32 : lang = "slq"
  · subst h32; decide
  by_cases h33 : lang = "sty"
  · subst h33; decide
  by_cases h34 : lang = "tk"
  · subst h34; decide
  by_cases h35 : lang = "tr"
  · subst h35; decide
  by_cases h36 : lang = "tt"
  · subst h36; decide
  by_cases h37 : lang = "tyv"
  · subst h37; decide
  by_cases h38 : lang = "ug"
  · subst h38; decide
  by_cases h39 : lang = "uum"
  · subst h39; decide
  by_cases h40 : lang = "uz"
  · subst h40; decide
  by_cases h41 : lang = "xbo"
  · subst h41; decide
  by_cases h42 : lang = "xpc"
  · subst h42; decide
  by_cases h43 : lang = "xqa"
  · subst h43; decide
  by_cases h44 : lang = "ybe"
  · subst h44; decide
  by_cases h45 : lang = "zkh"
  · subst h45; decide
  by_cases h46 : lang = "zkz"
  · subst h46; decide
  constructor
  · intro hT
    rw [locale_of] at hT
    rw [if_neg h1, if_neg h2, if_neg h3, if_neg h4, if_neg h5, if_neg h6, if_neg h7, if_neg h8, if_neg h9, if_neg h10, if_neg h11, if_neg h12, if_neg h13, if_neg h14, if_neg h15, if_neg h16, if_neg h17, if_neg h18, if_neg h19, if_neg h20, if_neg h21, if_neg h22, if_neg h23, if_neg h24, if_neg h25, if_neg h26, if_neg h27, if_neg h28, if_neg h29, if_neg h30, if_neg h31, if_neg h32, if_neg h33, if_neg h34, if_neg h35, if_neg h36, if_neg h37, if_neg h38, if_neg h39, if_neg h40, if_neg h41, if_neg h42, if_neg h43, if_neg h44, if_neg h45, if_neg h46] at hT
    cases hT
  · intro hmem
    rw [turkicCodes] at hmem
    simp only [List.mem_cons, List.not_mem_nil, or_false] at hmem
    rcases hmem with rfl|rfl|rfl|rfl|rfl|rfl|rfl|rfl|rfl|rfl|rfl|rfl|rfl|rfl|rfl|rfl|rfl|rfl|rfl|rfl|rfl|rfl|rfl|rfl|rfl|rfl|rfl|rfl|rfl|rfl|rfl|rfl|rfl|rfl|rfl|rfl|rfl|rfl|rfl|rfl|rfl|rfl|rfl|rfl|rfl|rfl
    · exact absurd rfl h1
    · exact absurd rfl h2
    · exact absurd rfl h3
    · exact absurd rfl h4
    · exact absurd rfl h5
    · exact absurd rfl h6
    · exact absurd rfl h7
    · exact absurd rfl h8
    · exact absurd rfl h9
    · exact absurd rfl h10
    · exact absurd rfl h11
    · exact absurd rfl h12
    · exact absurd rfl h13
    · exact absurd rfl h14
    · exact absurd rfl h15
    · exact absurd rfl h16
    · exact absurd rfl h17
    · exact absurd rfl h18
    · exact absurd rfl h19
    · exact absurd rfl h20
    · exact absurd rfl h21
    · exact absurd rfl h22
    · exact absurd rfl h23
    · exact absurd rfl h24
    · exact absurd rfl h25
    · exact absurd rfl h26
    · exact absurd rfl h27
    · exact absurd rfl h28
    · exact absurd rfl h29
    · exact absurd rfl h30
    · exact absurd rfl h31
    · exact absurd rfl h32
    · exact absurd rfl h33
    · exact absurd rfl h34
    · exact absurd rfl h35
    · exact absurd rfl h36
    · exact absurd rfl h37
    · exact absurd rfl h38
    · exact absurd rfl h39
    · exact absurd rfl h40
    · exact absurd rfl h41
    · exact absurd rfl h42
    · exact absurd rfl h43
    · exact absurd rfl h44
    · exact absurd rfl h45
    · exact absurd rfl h46

/-- C5: the Turkic case-folding variant is used if and only if the language
code belongs to the fixed, closed set of 46 Turkic codes; and for the Turkic
code "az" and the non-Turkic code "en", canonicalizing the title "I" gives
different results (dotless versus dotted lowercase i). -/
theorem turkic_locale_iff :
    (∀ lang : String, locale_of lang = Locale.Turkic ↔ lang ∈ turkicCodes) ∧
    canonTitle (locale_of "az") "I" = "ı" ∧
    canonTitle (locale_of "en") "I" = "i" ∧
    canonTitle (locale_of "az") "I" ≠ canonTitle (locale_of "en") "I" :=
  ⟨locale_of_turkic_iff, by decide, by decide, by decide⟩

/-! ## The site-key decomposition (claim C3) -/

/-- C3: a site-key is split on every occurrence of "wiki"; the first segment
is the language code ("und" when empty), the second is the project-site
suffix; when the suffix is empty and the language is "commons" or "species"
they are swapped; with fewer than two segments the sitelink is dropped and
no key is emitted; and the three example decompositions hold. -/
theorem siteSplit_spec :
    (∀ key : String,
      ((segStrings key).length < 2 → siteSplit key = none) ∧
      (∀ l s rest, segStrings key = l :: s :: rest →
        siteSplit key =
          (let lang := if l = "" then "und" else l
           if s = "" && (lang = "commons" || lang = "species") then some ("und", lang)
           else some (lang, s)))) ∧
    (∀ e : Entity, (∀ kp ∈ e.sitelinks, siteSplit kp.1 = none) → entityPairs e = []) ∧
    siteSplit "enwiki" = some ("en", "") ∧
    siteSplit "enwikisource" = some ("en", "source") ∧
    siteSplit "commonswiki" = some ("und", "commons") := by
  refine ⟨?_, ?_, by decide, by decide, by decide⟩
  · intro key
    constructor
    · intro hlen
      cases hseg : segStrings key with
      | nil => simp [siteSplit, hseg]
      | cons a t =>
        cases t with
        | nil => simp [siteSplit, hseg]
        | cons b t2 =>
          rw [hseg] at hlen
          simp only [List.length_cons] at hlen
          omega
    · intro l s rest h
      simp only [siteSplit, h]
  · intro e h
    unfold entityPairs
    rw [List.flatMap_eq_nil_iff]
    intro kp hkp
    rw [h kp hkp]

/-- C3 witness: the characterization applied to the concrete key "enwiki". -/
theorem siteSplit_spec_witness : siteSplit "enwiki" = some ("en", "") := by
  have h := (siteSplit_spec.1 "enwiki").2 "en" "" [] (by decide)
  rw [h]
  decide

/-! ## The key format (claim C2) -/

theorem data_append (a b : String) : (a ++ b).data = a.data ++ b.data := by
  cases a; cases b; rfl

/-- The shape of the string built by the push sequence of `make_key`. -/
theorem make_key_shape (lang site title : String) :
    make_key lang site title =
      lang ++ (if site = "" then "" else ".wiki" ++ site) ++ ":" ++
        canonTitle (locale_of lang) title := by
  apply String.ext
  simp only [make_key]
  by_cases h : site = ""
  · rw [if_pos h, if_pos h]
    simp [data_append]
  · rw [if_neg h, if_neg h]
    simp [data_append, List.append_assoc]

/-- C2: the encoded key is the language code, then ".wiki" and the site
exactly when the site is non-empty, then ':', then the canonicalized title;
and processing the fixture entity Q76 with site-key "enwiki" and title
"Barack Obama" yields a store mapping "en:barack_obama" to "Q76". -/
theorem make_key_format :
    (∀ lang site title : String,
      make_key lang site title =
        lang ++ (if site = "" then "" else ".wiki" ++ site) ++ ":" ++
          canonTitle (locale_of lang) title) ∧
    lookupStore (process decodeFixture [q76Line]) "en:barack_obama" = some "Q76" :=
  ⟨make_key_shape, by decide⟩

/-! ## Pointwise behaviour of the canonicalization loop (claim C6) -/

/-- The case-folded title characters, before underscore replacement. -/
def foldedList (locale : Locale) (title : String) : List Char :=
  title.toList.flatMap (foldChar locale)

/-- C6: after case folding, every control or whitespace character is replaced
by exactly one underscore and every other character passes through unchanged:
the canonical title has the same length as the folded character sequence and
agrees with it pointwise up to the underscore replacement. -/
theorem canon_pointwise (locale : Locale) (title : String) :
    (canonTitle locale title).toList.length = (foldedList locale title).length ∧
    ∀ i : Nat, i < (foldedList locale title).length →
      (canonTitle locale title).toList.getD i 'A' =
        (if isCtrlC ((foldedList locale title).getD i 'A') ||
            isWSC ((foldedList locale title).getD i 'A') then '_'
         else (foldedList locale title).getD i 'A') := by
  have hl : (canonTitle locale title).toList = (foldedList locale title).map replaceChar := rfl
  constructor
  · rw [hl, List.length_map]
  · intro i hi
    rw [hl, List.getD_eq_getElem?_getD, List.getD_eq_getElem?_getD, List.getElem?_map]
    cases hge : (foldedList locale title)[i]? with
    | none =>
      rw [List.getElem?_eq_none_iff] at hge
      omega
    | some a =>
      simp [replaceChar]

/-- C6 witness: in "a b" under the non-Turkic locale, the folded character at
index 1 is the space, and the canonical title carries an underscore there. -/
theorem canon_pointwise_witness :
    (canonTitle Locale.NonTurkic "a b").toList.getD 1 'A' = '_' := by
  have h := (canon_pointwise Locale.NonTurkic "a b").2 1 (by decide)
  rw [h]
  decide

/-! ## No whitespace or control characters in canonical titles (claim C10) -/

/-- C10: the canonicalized title segment of an emitted key (everything the
encoder appends after the ':' separator) contains no Unicode whitespace and
no control character. -/
theorem canon_no_ctrl_ws (lang site title : String) :
    (∃ pre : String,
       make_key lang site title = pre ++ ":" ++ canonTitle (locale_of lang) title) ∧
    ∀ c ∈ (canonTitle (locale_of lang) title).toList,
      isCtrlC c = false ∧ isWSC c = false := by
  constructor
  · exact ⟨lang ++ (if site = "" then "" else ".wiki" ++ site), make_key_shape lang site title⟩
  · intro c hc
    have hl : (canonTitle (locale_of lang) title).toList =
        (foldedList (locale_of lang) title).map replaceChar := rfl
    rw [hl] at hc
    obtain ⟨e, _, rfl⟩ := List.mem_map.mp hc
    by_cases h : (isCtrlC e || isWSC e) = true
    · rw [replaceChar, if_pos h]
      exact ⟨by decide, by decide⟩
    · rw [replaceChar, if_neg h]
      simp only [Bool.or_eq_true, not_or, Bool.not_eq_true] at h
      exact ⟨h.1, h.2⟩

/-- C10 witness: the underscore produced for the space of "A B" is neither
control nor whitespace. -/
theorem canon_no_ctrl_ws_witness : isCtrlC '_' = false ∧ isWSC '_' = false :=
  (canon_no_ctrl_ws "en" "" "A B").2 '_' (by decide)

/-! ## Line preprocessing (claim C9) -/

/-- C9: the reader drops any line shorter than 5 bytes before any parsing is
attempted (no store entry, independent of the decoder), and otherwise strips
at most one trailing comma: the prepared line is the raw line when it does
not end in a comma, and the raw line minus exactly its final comma when it
does. -/
theorem prep_spec (line : String) :
    (line.utf8ByteSize < 5 →
      prepLine line = none ∧
      ∀ (decode : String → Option Entity) (rest : List String) (st : PState),
        go decode (line :: rest) st = go decode rest st) ∧
    (∀ s, prepLine line = some s →
      5 ≤ line.utf8ByteSize ∧
      ((line.toList.getLast? ≠ some ',' ∧ s = line) ∨
       (line.toList.getLast? = some ',' ∧ s.toList ++ [','] = line.toList))) := by
  constructor
  · intro hshort
    have hp : prepLine line = none := by rw [prepLine, if_pos hshort]
    refine ⟨hp, fun decode rest st => ?_⟩
    simp only [go, hp]
  · intro s hs
    rw [prepLine] at hs
    by_cases h5 : line.utf8ByteSize < 5
    · rw [if_pos h5] at hs
      cases hs
    · rw [if_neg h5] at hs
      refine ⟨by omega, ?_⟩
      by_cases hc : line.toList.getLast? = some ','
      · rw [if_pos hc] at hs
        injection hs with hs
        refine Or.inr ⟨hc, ?_⟩
        have hdata : s.toList = line.toList.dropLast :=
          hs ▸ (rfl : (String.mk line.toList.dropLast).toList = line.toList.dropLast)
        rw [hdata]
        exact List.dropLast_append_getLast? ',' hc
      · rw [if_neg hc] at hs
        injection hs with hs
        exact Or.inl ⟨hc, hs.symm⟩

/-- C9 witness: a line ending in two commas loses exactly one of them. -/
theorem prep_spec_witness :
    5 ≤ "abcd,,".utf8ByteSize ∧
    (("abcd,,".toList.getLast? ≠ some ',' ∧ "abcd," = "abcd,,") ∨
     ("abcd,,".toList.getLast? = some ',' ∧ "abcd,".toList ++ [','] = "abcd,,".toList)) :=
  (prep_spec "abcd,,").2 "abcd," (by decide)

/-! ## Store semantics: overwrite and last-write-wins (claim C7) -/

theorem lookupStore_cons (p : String × String) (ps : Store) (k : String) :
    lookupStore (p :: ps) k = if p.1 == k then some p.2 else lookupStore ps k := by
  rw [lookupStore, List.find?_cons]
  cases h : (p.1 == k) <;> simp [h, lookupStore]

theorem lookup_map_ne (s : Store) (k v k' : String) (hne : k' ≠ k) :
    lookupStore (s.map (fun p => if p.1 == k then (k, v) else p)) k' = lookupStore s k' := by
  induction s with
  | nil => rfl
  | cons p ps ih =>
    rw [List.map_cons, lookupStore_cons, lookupStore_cons]
    by_cases hp : (p.1 == k) = true
    · rw [if_pos hp]
      have h1 : ((k, v).1 == k') = false := by
        simp only [beq_eq_false_iff_ne, ne_eq]
        exact fun h => hne h.symm
      have h2 : (p.1 == k') = false := by
        have hpk : p.1 = k := by simpa using hp
        simp only [beq_eq_false_iff_ne, ne_eq, hpk]
        exact fun h => hne h.symm
      rw [h1, h2]
      simp only [Bool.false_eq_true, if_false]
      exact ih
    · rw [if_neg hp]
      by_cases hq : (p.1 == k') = true
      · rw [if_pos hq, if_pos hq]
      · rw [if_neg hq, if_neg hq]
        exact ih

theorem lookup_map_eq (s : Store) (k v : String)
    (hany : s.any (fun p => p.1 == k) = true) :
    lookupStore (s.map (fun p => if p.1 == k then (k, v) else p)) k = some v := by
  induction s with
  | nil => simp at hany
  | cons p ps ih =>
    rw [List.map_cons, lookupStore_cons]
    by_cases hp : (p.1 == k) = true
    · rw [if_pos hp]
      have hk : ((k, v).1 == k) = true := by simp
      rw [if_pos hk]
    · rw [if_neg hp, if_neg hp]
      apply ih
      rw [Bool.not_eq_true] at hp
      rw [List.any_cons, hp, Bool.false_or] at hany
      exact hany

theorem lookup_upsert (s : Store) (k v k' : String) :
    lookupStore (upsert s k v) k' = if k' = k then some v else lookupStore s k' := by
  unfold upsert
  by_cases hany : (s.any (fun p => p.1 == k)) = true
  · rw [if_pos hany]
    by_cases he : k' = k
    · subst he
      rw [if_pos rfl]
      exact lookup_map_eq s k' v hany
    · rw [if_neg he]
      exact lookup_map_ne s k v k' he
  · rw [if_neg hany]
    rw [lookupStore, List.find?_append]
    by_cases he : k' = k
    · subst he
      have hnone : s.find? (fun p => p.1 == k') = none := by
        rw [List.find?_eq_none]
        intro x hx hpx
        exact hany (List.any_eq_true.mpr ⟨x, hx, hpx⟩)
      rw [hnone, if_pos rfl]
      simp [List.find?_cons]
    · rw [if_neg he]
      have h1 : List.find? (fun p => p.1 == k') [(k, v)] = none := by
        have : (k == k') = false := by
          simp only [beq_eq_false_iff_ne, ne_eq]
          exact fun h => he h.symm
        simp [List.find?_cons, this]
      rw [h1, Option.or_none]
      rfl

theorem keys_upsert_any (s : Store) (k v : String)
    (hany : s.any (fun p => p.1 == k) = true) :
    (upsert s k v).map (fun p => p.1) = s.map (fun p => p.1) := by
  unfold upsert
  rw [if_pos hany, List.map_map]
  apply List.map_congr_left
  intro p _
  by_cases hp : (p.1 == k) = true
  · simp only [Function.comp_apply, if_pos hp]
    exact ((by simpa using hp : p.1 = k)).symm
  · simp only [Function.comp_apply, if_neg hp]

theorem keys_upsert_not (s : Store) (k v : String)
    (hany : s.any (fun p => p.1 == k) = false) :
    (upsert s k v).map (fun p => p.1) = s.map (fun p => p.1) ++ [k] := by
  unfold upsert
  simp [hany]

theorem nodup_keys_upsert (s : Store) (k v : String)
    (h : (s.map (fun p => p.1)).Nodup) : ((upsert s k v).map (fun p => p.1)).Nodup := by
  by_cases hany : (s.any (fun p => p.1 == k)) = true
  · rw [keys_upsert_any s k v hany]
    exact h
  · rw [Bool.not_eq_true] at hany
    rw [keys_upsert_not s k v hany, List.nodup_append]
    refine ⟨h, List.nodup_singleton k, ?_⟩
    intro a ha hb
    simp only [List.mem_singleton] at hb
    subst hb
    obtain ⟨p, hp, hpk⟩ := List.mem_map.mp ha
    rw [List.any_eq_false] at hany
    exact hany p hp (by simp [hpk])

theorem applyPairs_cons (s : Store) (q : String × String) (qs : List (String × String)) :
    applyPairs s (q :: qs) = applyPairs (upsert s q.1 q.2) qs := rfl

theorem applyPairs_append (s : Store) (a b : List (String × String)) :
    applyPairs s (a ++ b) = applyPairs (applyPairs s a) b := by
  unfold applyPairs
  rw [List.foldl_append]

theorem nodup_keys_applyPairs (pairs : List (String × String)) : ∀ s : Store,
    (s.map (fun p => p.1)).Nodup → ((applyPairs s pairs).map (fun p => p.1)).Nodup := by
  induction pairs with
  | nil => intro s h; exact h
  | cons q qs ih =>
    intro s h
    rw [applyPairs_cons]
    exact ih (upsert s q.1 q.2) (nodup_keys_upsert s q.1 q.2 h)

theorem lastWins_nil (k : String) : lastWins [] k = none := rfl

theorem lastWins_cons (q : String × String) (qs : List (String × String)) (k : String) :
    lastWins (q :: qs) k = (lastWins qs k).or (if q.1 == k then some q.2 else none) := by
  unfold lastWins
  rw [List.filter_cons]
  by_cases hq : (q.1 == k) = true
  · rw [if_pos hq, if_pos hq, List.getLast?_cons]
    cases hlast : (qs.filter (fun p => p.1 == k)).getLast? with
    | none => simp [hlast]
    | some r => simp [hlast]
  · rw [if_neg hq, if_neg hq, Option.or_none]

theorem lookup_applyPairs (pairs : List (String × String)) : ∀ (s : Store) (k : String),
    lookupStore (applyPairs s pairs) k = (lastWins pairs k).or (lookupStore s k) := by
  induction pairs with
  | nil =>
    intro s k
    rw [lastWins_nil]
    rfl
  | cons q qs ih =>
    intro s k
    rw [applyPairs_cons, ih (upsert s q.1 q.2) k, lookup_upsert, lastWins_cons,
      Option.or_assoc]
    congr 1
    by_cases hq : (q.1 == k) = true
    · rw [if_pos hq]
      have hk : k = q.1 := ((by simpa using hq : q.1 = k)).symm
      rw [if_pos hk]
      rfl
    · rw [if_neg hq]
      have hk : ¬ (k = q.1) := fun h => hq (by simp [h])
      rw [if_neg hk]
      rfl

/-! ## process as a fold of upserts over in-order pairs -/

theorem go_eq_applyPairs (decode : String → Option Entity) (lines : List String) :
    ∀ st : PState, go decode lines st = applyPairs st.store (goPairs decode lines st.numLines) := by
  induction lines with
  | nil => intro st; rfl
  | cons rawLine rest ih =>
    intro st
    simp only [go, goPairs]
    cases hp : prepLine rawLine with
    | none => exact ih st
    | some line =>
      dsimp only
      by_cases hn : st.numLines + 1 > 10000
      · rw [if_pos hn, if_pos hn]
        rfl
      · rw [if_neg hn, if_neg hn]
        cases hd : decode line with
        | none => exact ih ⟨st.numLines + 1, st.store⟩
        | some e =>
          dsimp only
          by_cases hemp : e.sitelinks.isEmpty = true
          · rw [if_pos hemp, if_pos hemp, List.nil_append]
            exact ih ⟨st.numLines + 1, st.store⟩
          · rw [if_neg hemp, if_neg hemp, applyPairs_append]
            exact ih ⟨st.numLines + 1, applyEntity st.store e⟩

/-- C7: store entries are applied in input line order with overwrite
semantics: the finished store is the in-order fold of upserts over the
emitted pairs, its keys are unique, and looking up any key returns the
entity id of the last emitted pair with that key (last-write-wins). -/
theorem store_last_write_wins (decode : String → Option Entity) (lines : List String)
    (k : String) :
    process decode lines = buildStore (collectPairs decode lines) ∧
    ((process decode lines).map (fun p => p.1)).Nodup ∧
    lookupStore (process decode lines) k = lastWins (collectPairs decode lines) k := by
  have h1 : process decode lines = buildStore (collectPairs decode lines) :=
    go_eq_applyPairs decode lines ⟨0, []⟩
  refine ⟨h1, ?_, ?_⟩
  · rw [h1]
    exact nodup_keys_applyPairs (collectPairs decode lines) [] (by simp)
  · rw [h1]
    unfold buildStore
    rw [lookup_applyPairs]
    have : lookupStore [] k = none := rfl
    rw [this, Option.or_none]

/-! ## The leftover debugging record cap (claims C1 and C8) -/

theorem go_junk : ∀ (n m : Nat) (store : Store) (rest : List String), m + n ≤ 10000 →
    go decodeFixture (List.replicate n junkLine ++ rest) ⟨m, store⟩ =
      go decodeFixture rest ⟨m + n, store⟩ := by
  intro n
  induction n with
  | zero =>
    intro m store rest _
    rw [List.replicate_zero, List.nil_append, Nat.add_zero]
  | succ n ih =>
    intro m store rest h
    rw [List.replicate_succ, List.cons_append]
    have hprep : prepLine junkLine = some junkLine := by decide
    have hdec : decodeFixture junkLine = none := by decide
    simp only [go, hprep, hdec]
    have hn : ¬ (m + 1 > 10000) := by omega
    rw [if_neg hn]
    have hrec := ih (m + 1) store rest (by omega)
    rw [hrec]
    have harith : m + 1 + n = m + (n + 1) := by omega
    rw [harith]

/-- C1 (code bug): ingestion IS truncated after a fixed record count: with
10000 undecodable-but-counted lines in front, the valid record Q76 produces
no store entry at all, although the same record alone ingests fine. The
leftover `if true && num_lines > 10000` break in `process` stops ingestion. -/
theorem ingestion_truncated :
    process decodeFixture (List.replicate 10000 junkLine ++ [q76Line]) = [] ∧
    process decodeFixture [q76Line] = [("en:barack_obama", "Q76")] := by
  constructor
  · simp only [process]
    rw [go_junk 10000 0 [] [q76Line] (by omega)]
    decide
  · decide

/-- C8 (code bug): an undecodable line is not free of effect on subsequent
lines: it consumes one slot of the leftover 10000-record debugging cap, so
with 9999 filler lines the valid record after it is dropped, while without
the undecodable line the very same valid record is stored. -/
theorem bad_line_consumes_cap :
    process decodeFixture (List.replicate 9999 junkLine ++ badLine :: [q76Line]) = [] ∧
    process decodeFixture (List.replicate 9999 junkLine ++ [q76Line]) =
      [("en:barack_obama", "Q76")] := by
  constructor
  · simp only [process]
    rw [go_junk 9999 0 [] (badLine :: [q76Line]) (by omega)]
    decide
  · simp only [process]
    rw [go_junk 9999 0 [] [q76Line] (by omega)]
    decide

end QSitelinks
